import Mathlib

/-!
Verification of the todo MCP server against its specification.

The development shallowly embeds the two dispatcher implementations of the
repository and the shared task store:

* `main.py` (FastAPI): the in-memory store `todos_storage` / `next_id`, the
  `MCPServer.handle_tools_call` tool dispatcher, the `/mcp/stream` JSON-RPC
  endpoint, and the REST `/api/todos` handlers.
* `src/app.py` (Flask) together with `src/todo_service.py` and
  `src/models.py`: the `TodoService` business-logic layer over a database
  (modelled as an in-memory row list with an increasing identity counter,
  standing for the SQLAlchemy session) and the `/mcp` JSON-RPC endpoint.

JSON values are modelled by the inductive `JVal`; JSON numbers are modelled
as integers (all numeric fields used by the code are integer ids), and tool
arguments are read at their JSON-schema types (string / integer / boolean
fields); ill-typed argument values are treated as absent.  Timestamps are
abstract: a `now` parameter threaded into every operation.
-/

/-- JSON values (numbers restricted to integers, which is all the code uses). -/
inductive JVal where
  | jnull : JVal
  | jbool (b : Bool) : JVal
  | jnum (n : Int) : JVal
  | jstr (s : String) : JVal
  | jarr (xs : List JVal) : JVal
  | jobj (fields : List (String × JVal)) : JVal

/-- Lookup of a key in a JSON object's field list (Python `dict.get`). -/
def jget (fs : List (String × JVal)) (k : String) : Option JVal :=
  match fs with
  | [] => none
  | (k', v) :: rest => if k' == k then some v else jget rest k

/-- Read a string-typed field. -/
def jGetStr (fs : List (String × JVal)) (k : String) : Option String :=
  match jget fs k with
  | some (.jstr s) => some s
  | _ => none

/-- Read a boolean-typed field. -/
def jGetBool (fs : List (String × JVal)) (k : String) : Option Bool :=
  match jget fs k with
  | some (.jbool b) => some b
  | _ => none

/-- Read an integer-typed field. -/
def jGetInt (fs : List (String × JVal)) (k : String) : Option Int :=
  match jget fs k with
  | some (.jnum n) => some n
  | _ => none

/-- Python truthiness (`bool(x)`) of a JSON value. -/
def JVal.truthy : JVal → Bool
  | .jnull => false
  | .jbool b => b
  | .jnum n => n != 0
  | .jstr s => !s.isEmpty
  | .jarr xs => !xs.isEmpty
  | .jobj fs => !fs.isEmpty

/-- Whether a JSON object carries a given top-level key. -/
def JVal.hasKey (v : JVal) (k : String) : Bool :=
  match v with
  | .jobj fs => fs.any (fun p => p.1 == k)
  | _ => false

/-- The `id` field of a JSON-RPC response object. -/
def JVal.idField (v : JVal) : Option JVal :=
  match v with
  | .jobj fs => jget fs "id"
  | _ => none

/-- The `error.code` field of a JSON-RPC response object. -/
def JVal.errCode (v : JVal) : Option Int :=
  match v with
  | .jobj fs =>
    match jget fs "error" with
    | some (.jobj es) =>
      match jget es "code" with
      | some (.jnum c) => some c
      | _ => none
    | _ => none
  | _ => none

/-- Python `str`/`repr` of a booleean. -/
def pyBool : Bool → String
  | false => "False"
  | true => "True"

/-- Python `repr` of a string (escaping of quote characters is not modelled;
no string manipulated by the claims contains a quote). -/
def pyQuote (s : String) : String := "\x27" ++ s ++ "\x27"

/-- Python rendering of an optional string (`None` or quoted). -/
def pyOptStr : Option String → String
  | none => "None"
  | some s => pyQuote s

/-- Rendering of an optional integer argument inside an f-string
(`None` when the key was absent). -/
def tidRender : Option Int → String
  | none => "None"
  | some n => toString n

/-- Rendering of an optional tool name inside an f-string. -/
def nameRender : Option String → String
  | none => "None"
  | some s => s

/-- Coarse rendering of a JSON value inside an f-string (only the cases the
error-message texts can meet are given faithfully; no claim reads these). -/
def jvalRender : JVal → String
  | .jnull => "None"
  | .jbool b => pyBool b
  | .jnum n => toString n
  | .jstr s => s
  | .jarr _ => "[...]"
  | .jobj _ => "\x7b...\x7d"

/-! ## FastAPI model (`main.py`)

The in-memory store is the module-level `todos_storage : Dict[int, Todo]`
together with the counter `next_id` (main.py lines 62-64).  A Python dict is
modelled as an insertion-ordered association list: assignment to a fresh key
appends, assignment to a present key replaces in place, `pop` removes the
entry. -/

/-- The pydantic `Todo` model of `main.py` (lines 45-51).  `id` and
`created_at` are always set by the code before a record is stored, so they
are modelled as plain fields; `created_at` is the abstract timestamp string
handed to the operation. -/
structure Todo where
  id : Int
  title : String
  description : String
  completed : Bool
  priority : String
  created_at : String
  deriving DecidableEq, Repr

/-- Python `str(todo.dict())` for the pydantic model (field order is the
declaration order of `main.py` lines 45-51). -/
def Todo.pyDict (t : Todo) : String :=
  "\x7b" ++ pyQuote "id" ++ ": " ++ toString t.id ++ ", " ++
  pyQuote "title" ++ ": " ++ pyQuote t.title ++ ", " ++
  pyQuote "description" ++ ": " ++ pyQuote t.description ++ ", " ++
  pyQuote "completed" ++ ": " ++ pyBool t.completed ++ ", " ++
  pyQuote "priority" ++ ": " ++ pyQuote t.priority ++ ", " ++
  pyQuote "created_at" ++ ": " ++ pyQuote t.created_at ++ "\x7d"

/-- `todos_storage` as an insertion-ordered association list. -/
abbrev Storage := List (Int × Todo)

namespace Storage

/-- Python `d[k]` / `d.get(k)` lookup. -/
def lookup (n : Int) (l : Storage) : Option Todo :=
  (l.find? (fun p => p.1 == n)).map (fun p => p.2)

/-- Python `d[k] = v`: replace in place when the key is present, append
otherwise (dict insertion order). -/
def setPy (n : Int) (v : Todo) : Storage → Storage
  | [] => [(n, v)]
  | (k, w) :: rest => if k == n then (n, v) :: rest else (k, w) :: setPy n v rest

/-- Python `d.pop(k)` (dict keys are unique, so filtering removes exactly
the one entry). -/
def pop (n : Int) (l : Storage) : Storage :=
  l.filter (fun p => p.1 != n)

/-- `k in d` membership. -/
def hasId (n : Int) (l : Storage) : Bool :=
  (lookup n l).isSome

end Storage

/-- The module-level mutable state of `main.py`: `todos_storage` and
`next_id` (lines 62-64). -/
structure MainState where
  storage : Storage
  nextId : Int
  deriving DecidableEq, Repr

/-- Initial state: empty dict, `next_id = 1`. -/
def MainState.init : MainState := ⟨[], 1⟩

/-- The `arguments` object of a `tools/call`, read at its JSON-schema types
(absent or ill-typed fields are `none`). -/
structure ToolArgs where
  title : Option String := none
  description : Option String := none
  priority : Option String := none
  todo_id : Option Int := none
  completed : Option Bool := none
  filter_completed : Option Bool := none
  deriving DecidableEq, Repr

/-- Extraction of `ToolArgs` from a JSON `arguments` object. -/
def toolArgsOf (afs : List (String × JVal)) : ToolArgs where
  title := jGetStr afs "title"
  description := jGetStr afs "description"
  priority := jGetStr afs "priority"
  todo_id := jGetInt afs "todo_id"
  completed := jGetBool afs "completed"
  filter_completed := jGetBool afs "filter_completed"

/-- Outcome of `MCPServer.handle_tools_call`: either the returned
`content` array (modelled by its single text part) or a raised
`HTTPException(status, detail)`. -/
inductive ToolOut where
  | content (text : String) : ToolOut
  | httpError (status : Nat) (detail : String) : ToolOut
  deriving DecidableEq, Repr

/-- Python falsiness of `arguments.get("title")` (`None` or the empty
string; any non-empty string, including whitespace, is truthy). -/
def pyFalsyStr : Option String → Bool
  | none => true
  | some s => s.isEmpty

/-- The five manifest tool names, in `self.tools` insertion order
(main.py `initialize_tools`). -/
def toolNames : List String :=
  ["create_todo", "list_todos", "update_todo", "delete_todo", "mark_todo_complete"]

/-- `tool_name not in self.tools` (a `None` name is never a member). -/
def knownTool : Option String → Bool
  | some n => toolNames.contains n
  | none => false

/-- The `create_todo` branch of `handle_tools_call` (main.py 474-503). -/
def toolCreate (args : ToolArgs) (now : String) (st : MainState) :
    ToolOut × MainState :=
  if pyFalsyStr args.title then
    (.content "Error: Title is required", st)
  else
    let t : Todo :=
      { id := st.nextId
        title := args.title.getD ""
        description := args.description.getD ""
        completed := false
        priority := args.priority.getD "medium"
        created_at := now }
    (.content ("Created todo: " ++ t.pyDict),
     ⟨st.storage.setPy st.nextId t, st.nextId + 1⟩)

/-- The shared listing logic of the `list_todos` tool (main.py 506-510) and
of REST `GET /api/todos` (main.py 812-815): the dict's values in insertion
order, optionally filtered by completion status. -/
def mainListTodos (filter_completed : Option Bool) (st : MainState) : List Todo :=
  let todos := st.storage.map (fun p => p.2)
  match filter_completed with
  | none => todos
  | some b => todos.filter (fun t => t.completed == b)

/-- Python rendering of `[todo.dict() for todo in todos]`. -/
def todosPyList (l : List Todo) : String :=
  "[" ++ String.intercalate ", " (l.map Todo.pyDict) ++ "]"

/-- The `list_todos` branch of `handle_tools_call` (main.py 505-520). -/
def toolList (args : ToolArgs) (st : MainState) : ToolOut × MainState :=
  let todos := mainListTodos args.filter_completed st
  (.content ("Found " ++ toString todos.length ++ " todos: " ++ todosPyList todos), st)

/-- The `update_todo` branch of `handle_tools_call` (main.py 522-551).
Only the argument keys that are present are applied to the stored record. -/
def toolUpdate (args : ToolArgs) (st : MainState) : ToolOut × MainState :=
  match args.todo_id with
  | none => (.content ("Todo with ID " ++ tidRender none ++ " not found"), st)
  | some tid =>
    match st.storage.lookup tid with
    | none => (.content ("Todo with ID " ++ toString tid ++ " not found"), st)
    | some todo =>
      let todo' : Todo :=
        { todo with
          title := args.title.getD todo.title
          description := args.description.getD todo.description
          priority := args.priority.getD todo.priority
          completed := args.completed.getD todo.completed }
      (.content ("Updated todo: " ++ todo'.pyDict),
       ⟨st.storage.setPy tid todo', st.nextId⟩)

/-- The `delete_todo` branch of `handle_tools_call` (main.py 553-573). -/
def toolDelete (args : ToolArgs) (st : MainState) : ToolOut × MainState :=
  match args.todo_id with
  | none => (.content ("Todo with ID " ++ tidRender none ++ " not found"), st)
  | some tid =>
    match st.storage.lookup tid with
    | none => (.content ("Todo with ID " ++ toString tid ++ " not found"), st)
    | some todo =>
      (.content ("Deleted todo: " ++ todo.pyDict), ⟨st.storage.pop tid, st.nextId⟩)

/-- The `mark_todo_complete` branch of `handle_tools_call` (main.py 575-597);
`completed` defaults to `True`. -/
def toolMark (args : ToolArgs) (st : MainState) : ToolOut × MainState :=
  match args.todo_id with
  | none => (.content ("Todo with ID " ++ tidRender none ++ " not found"), st)
  | some tid =>
    match st.storage.lookup tid with
    | none => (.content ("Todo with ID " ++ toString tid ++ " not found"), st)
    | some todo =>
      let todo' := { todo with completed := args.completed.getD true }
      (.content ("Updated todo completion: " ++ todo'.pyDict),
       ⟨st.storage.setPy tid todo', st.nextId⟩)

/-- `MCPServer.handle_tools_call` (main.py 464-599): the unknown-tool guard
raises `HTTPException(400)`, then the `if/elif` chain dispatches on the tool
name.  The final branch mirrors the unreachable fallback at line 599. -/
def handle_tools_call (name : Option String) (args : ToolArgs) (now : String)
    (st : MainState) : ToolOut × MainState :=
  if !knownTool name then
    (.httpError 400 ("Tool '" ++ nameRender name ++ "' not found"), st)
  else if name == some "create_todo" then toolCreate args now st
  else if name == some "list_todos" then toolList args st
  else if name == some "update_todo" then toolUpdate args st
  else if name == some "delete_todo" then toolDelete args st
  else if name == some "mark_todo_complete" then toolMark args st
  else (.content "Tool executed successfully", st)

example :
    (handle_tools_call (some "create_todo") { title := some "a" } "t" MainState.init).2
      = ⟨[(1, ⟨1, "a", "", false, "medium", "t"⟩)], 2⟩ := by decide
example :
    (handle_tools_call (some "nope") {} "t" MainState.init).1
      = .httpError 400 "Tool 'nope' not found" := by decide

/-! ### The `/mcp/stream` JSON-RPC dispatcher of `main.py` -/

/-- A success envelope: `{"jsonrpc": "2.0", "id": msg_id, "result": result}`
(main.py 1006-1010 and the parallel branches). -/
def rpcResult (idv : JVal) (res : JVal) : JVal :=
  .jobj [("jsonrpc", .jstr "2.0"), ("id", idv), ("result", res)]

/-- An error envelope:
`{"jsonrpc": "2.0", "id": msg_id, "error": {"code": c, "message": m}}`. -/
def rpcError (idv : JVal) (code : Int) (msg : String) : JVal :=
  .jobj [("jsonrpc", .jstr "2.0"), ("id", idv),
         ("error", .jobj [("code", .jnum code), ("message", .jstr msg)])]

/-- A tool result payload: `{"content": [{"type": "text", "text": t}]}`. -/
def contentJson (t : String) : JVal :=
  .jobj [("content", .jarr [.jobj [("type", .jstr "text"), ("text", .jstr t)]])]

/-- `handle_initialize` result payload (main.py 442-457). -/
def mainInitResult : JVal :=
  .jobj [("protocolVersion", .jstr "2024-11-05"),
         ("capabilities", .jobj [
            ("tools", .jobj [("listChanged", .jbool true)]),
            ("resources", .jobj [("subscribe", .jbool true), ("listChanged", .jbool true)])]),
         ("serverInfo", .jobj [("name", .jstr "Todo MCP Server"), ("version", .jstr "1.0.0")])]

/-- The `create_todo` descriptor of the manifest (main.py 315-337). -/
def mainCreateToolJson : JVal :=
  .jobj [("name", .jstr "create_todo"),
    ("description", .jstr "Create a new todo item"),
    ("inputSchema", .jobj [("type", .jstr "object"),
      ("properties", .jobj [
        ("title", .jobj [("type", .jstr "string"),
                         ("description", .jstr "Title of the todo")]),
        ("description", .jobj [("type", .jstr "string"),
                               ("description", .jstr "Optional description")]),
        ("priority", .jobj [("type", .jstr "string"),
                            ("enum", .jarr [.jstr "low", .jstr "medium", .jstr "high"]),
                            ("description", .jstr "Priority level")])]),
      ("required", .jarr [.jstr "title"])])]

/-- The `list_todos` descriptor (main.py 341-354). -/
def mainListToolJson : JVal :=
  .jobj [("name", .jstr "list_todos"),
    ("description", .jstr "Get all todo items"),
    ("inputSchema", .jobj [("type", .jstr "object"),
      ("properties", .jobj [
        ("filter_completed", .jobj [("type", .jstr "boolean"),
                                    ("description", .jstr "Filter by completion status")])])])]

/-- The `update_todo` descriptor (main.py 357-388). -/
def mainUpdateToolJson : JVal :=
  .jobj [("name", .jstr "update_todo"),
    ("description", .jstr "Update an existing todo item"),
    ("inputSchema", .jobj [("type", .jstr "object"),
      ("properties", .jobj [
        ("todo_id", .jobj [("type", .jstr "integer"),
                           ("description", .jstr "Todo ID to update")]),
        ("title", .jobj [("type", .jstr "string"), ("description", .jstr "New title")]),
        ("description", .jobj [("type", .jstr "string"),
                               ("description", .jstr "New description")]),
        ("priority", .jobj [("type", .jstr "string"),
                            ("enum", .jarr [.jstr "low", .jstr "medium", .jstr "high"]),
                            ("description", .jstr "Priority level")]),
        ("completed", .jobj [("type", .jstr "boolean"),
                             ("description", .jstr "Completion status")])]),
      ("required", .jarr [.jstr "todo_id"])])]

/-- The `delete_todo` descriptor (main.py 391-405). -/
def mainDeleteToolJson : JVal :=
  .jobj [("name", .jstr "delete_todo"),
    ("description", .jstr "Delete a todo item"),
    ("inputSchema", .jobj [("type", .jstr "object"),
      ("properties", .jobj [
        ("todo_id", .jobj [("type", .jstr "integer"),
                           ("description", .jstr "Todo ID to delete")])]),
      ("required", .jarr [.jstr "todo_id"])])]

/-- The `mark_todo_complete` descriptor (main.py 408-427). -/
def mainMarkToolJson : JVal :=
  .jobj [("name", .jstr "mark_todo_complete"),
    ("description", .jstr "Mark a todo as complete"),
    ("inputSchema", .jobj [("type", .jstr "object"),
      ("properties", .jobj [
        ("todo_id", .jobj [("type", .jstr "integer"),
                           ("description", .jstr "Todo ID to mark")]),
        ("completed", .jobj [("type", .jstr "boolean"),
                             ("description", .jstr "Completion status"),
                             ("default", .jbool true)])]),
      ("required", .jarr [.jstr "todo_id"])])]

/-- `handle_tools_list` result payload (main.py 459-462), the five
descriptors in `self.tools` insertion order. -/
def mainToolsResult : JVal :=
  .jobj [("tools", .jarr [mainCreateToolJson, mainListToolJson, mainUpdateToolJson,
                          mainDeleteToolJson, mainMarkToolJson])]

/-- `handle_resources_list` result payload (main.py 601-604, resource from
`initialize_resources` 432-437). -/
def mainResourcesResult : JVal :=
  .jobj [("resources", .jarr [.jobj [
    ("uri", .jstr "mcp://server/todos"),
    ("name", .jstr "Todo List"),
    ("description", .jstr "Current todo list data"),
    ("mimeType", .jstr "application/json")]])]

/-- `handle_resources_read` (main.py 606-622): the single well-known URI
yields the serialized store, any other URI raises `HTTPException(404)`. -/
def handle_resources_read (uri : Option String) (st : MainState) : ToolOut :=
  if uri == some "mcp://server/todos" then
    .content (todosPyList (st.storage.map (fun p => p.2)))
  else
    .httpError 404 ("Resource '" ++ nameRender uri ++ "' not found")

/-- `resources/read` result payload (main.py 612-620). -/
def resourcesReadResult (uri text : String) : JVal :=
  .jobj [("contents", .jarr [.jobj [
    ("uri", .jstr uri), ("mimeType", .jstr "application/json"), ("text", .jstr text)]])]

/-- Outcome of one POST of a body to `/mcp/stream`: either a returned JSON
response value, or an exception escaping the handler (the `except` block
itself raising, surfaced by the framework as a plain HTTP 500 with no
JSON-RPC envelope). -/
inductive EndpointOut where
  | resp (v : JVal) : EndpointOut
  | crash : EndpointOut

/-- `mcp_stream_endpoint` (main.py 993-1058).  The input is the request
body: `none` for an unparseable body (`request.json()` raises, `message` is
not in scope in the `except` block, so the error id is `null`); a parsed
non-object body makes `message.get` raise `AttributeError` both in the `try`
block and again in the `except` block, so the handler crashes.  A raised
`HTTPException` from a handler is caught by the generic `except` and
rendered as a `-32603` envelope whose message is
`f"Internal error: {status}: {detail}"`. -/
def mcp_stream_endpoint (body : Option JVal) (now : String) (st : MainState) :
    EndpointOut × MainState :=
  match body with
  | none =>
    (.resp (rpcError .jnull (-32603)
      "Internal error: Expecting value: line 1 column 1 (char 0)"), st)
  | some (.jobj fs) =>
    let msgId := (jget fs "id").getD .jnull
    match jget fs "method" with
    | some (.jstr "initialize") => (.resp (rpcResult msgId mainInitResult), st)
    | some (.jstr "tools/list") => (.resp (rpcResult msgId mainToolsResult), st)
    | some (.jstr "tools/call") =>
      (match (jget fs "params").getD (.jobj []) with
       | .jobj pfs =>
         (match (jget pfs "arguments").getD (.jobj []) with
          | .jobj afs =>
            (match handle_tools_call (jGetStr pfs "name") (toolArgsOf afs) now st with
             | (.content t, st') => (.resp (rpcResult msgId (contentJson t)), st')
             | (.httpError c d, st') =>
               (.resp (rpcError msgId (-32603)
                 ("Internal error: " ++ toString c ++ ": " ++ d)), st'))
          | v =>
            (.resp (rpcError msgId (-32603)
              ("Internal error: '" ++ jvalRender v ++ "' object has no attribute 'get'")), st))
       | v =>
         (.resp (rpcError msgId (-32603)
           ("Internal error: '" ++ jvalRender v ++ "' object has no attribute 'get'")), st))
    | some (.jstr "resources/list") => (.resp (rpcResult msgId mainResourcesResult), st)
    | some (.jstr "resources/read") =>
      (match (jget fs "params").getD (.jobj []) with
       | .jobj pfs =>
         (match handle_resources_read (jGetStr pfs "uri") st with
          | .content t =>
            (.resp (rpcResult msgId
              (resourcesReadResult ((jGetStr pfs "uri").getD "") t)), st)
          | .httpError c d =>
            (.resp (rpcError msgId (-32603)
              ("Internal error: " ++ toString c ++ ": " ++ d)), st))
       | v =>
         (.resp (rpcError msgId (-32603)
           ("Internal error: '" ++ jvalRender v ++ "' object has no attribute 'get'")), st))
    | m =>
      (.resp (rpcError msgId (-32601)
        ("Method '" ++ (m.map jvalRender).getD "None" ++ "' not found")), st)
  | some _ => (.crash, st)

/-! ### REST endpoints of `main.py` -/

/-- Outcome of a REST handler: the returned record or a raised
`HTTPException(status, detail)`. -/
inductive RestOut where
  | ok (t : Todo) : RestOut
  | exc (status : Nat) (detail : String) : RestOut
  deriving DecidableEq, Repr

/-- Request body of `POST /api/todos`, read at its JSON types. -/
structure CreateData where
  title : Option String := none
  description : Option String := none
  priority : Option String := none
  deriving DecidableEq, Repr

/-- Request body of `PUT /api/todos/{id}`.  The `completed` value is kept as
a raw JSON value because the code applies `bool(...)` to it. -/
structure UpdateData where
  title : Option String := none
  description : Option String := none
  priority : Option String := none
  completed : Option JVal := none

/-- The allowed priority values. -/
def allowedPriorities : List String := ["low", "medium", "high"]

/-- Python `str.strip()`: drop leading and trailing whitespace.  (Defined
over the character list so that concrete instances reduce by `decide`;
semantically identical to `String.trim`.) -/
def pyStrip (s : String) : String :=
  ⟨((s.data.dropWhile Char.isWhitespace).reverse.dropWhile Char.isWhitespace).reverse⟩

/-- `create_todo_api` (main.py 819-848).  `todo_data.get("title", "").strip()`
then falsiness check; an out-of-range priority is coerced to `"medium"`.
The inner `HTTPException` is caught by the surrounding
`except Exception` and re-raised as a 400 whose detail is the
`str` of the original exception. -/
def create_todo_api (d : CreateData) (now : String) (st : MainState) :
    RestOut × MainState :=
  let title := pyStrip (d.title.getD "")
  if title.isEmpty then
    (.exc 400 "400: Title is required", st)
  else
    let description := d.description.getD ""
    let priority0 := d.priority.getD "medium"
    let priority := if priority0 ∈ allowedPriorities then priority0 else "medium"
    let t : Todo :=
      { id := st.nextId, title := title, description := description,
        completed := false, priority := priority, created_at := now }
    (.ok t, ⟨st.storage.setPy t.id t, st.nextId + 1⟩)

/-- `update_todo_api` (main.py 850-875): 404 when the id is absent; a
supplied title must be non-empty after stripping (400 otherwise, with the
store untouched); a supplied priority is applied only when it is one of the
three allowed values; a supplied completed value is coerced with `bool`. -/
def update_todo_api (tid : Int) (d : UpdateData) (st : MainState) :
    RestOut × MainState :=
  match st.storage.lookup tid with
  | none => (.exc 404 "Todo not found", st)
  | some todo =>
    let titleStep : Option Todo :=
      match d.title with
      | none => some todo
      | some ttl =>
        if (pyStrip ttl).isEmpty then none else some { todo with title := pyStrip ttl }
    match titleStep with
    | none => (.exc 400 "Title is required", st)
    | some t1 =>
      let t2 := match d.description with
        | none => t1
        | some ds => { t1 with description := ds }
      let t3 := match d.priority with
        | none => t2
        | some p => if p ∈ allowedPriorities then { t2 with priority := p } else t2
      let t4 := match d.completed with
        | none => t3
        | some v => { t3 with completed := v.truthy }
      (.ok t4, ⟨st.storage.setPy tid t4, st.nextId⟩)

/-- `toggle_todo_complete`, `PATCH /api/todos/{id}/complete`
(main.py 877-886): `bool(completion_data.get("completed", not todo.completed))`.
The parameter is the `completed` field of the body (`none` when the key is
absent). -/
def toggle_todo_complete (tid : Int) (completedField : Option JVal)
    (st : MainState) : RestOut × MainState :=
  match st.storage.lookup tid with
  | none => (.exc 404 "Todo not found", st)
  | some todo =>
    let todo' := { todo with
      completed := match completedField with
        | none => !todo.completed
        | some v => v.truthy }
    (.ok todo', ⟨st.storage.setPy tid todo', st.nextId⟩)

/-- `delete_todo_api` (main.py 888-895). -/
def delete_todo_api (tid : Int) (st : MainState) : RestOut × MainState :=
  match st.storage.lookup tid with
  | none => (.exc 404 "Todo not found", st)
  | some todo => (.ok todo, ⟨st.storage.pop tid, st.nextId⟩)

/-! ### Operation sequences over the `main.py` store

Every entry point that touches `todos_storage` / `next_id`: the five MCP
tools through `handle_tools_call`, and the four mutating REST handlers. -/

/-- One store-touching operation of `main.py` (REST reads are
`mainListTodos`, which does not change state). -/
inductive MainOp where
  | tool (name : Option String) (args : ToolArgs) (now : String) : MainOp
  | apiCreate (d : CreateData) (now : String) : MainOp
  | apiUpdate (tid : Int) (d : UpdateData) : MainOp
  | apiPatch (tid : Int) (completedField : Option JVal) : MainOp
  | apiDelete (tid : Int) : MainOp

/-- State transition of one operation. -/
def MainOp.exec : MainOp → MainState → MainState
  | .tool name args now, st => (handle_tools_call name args now st).2
  | .apiCreate d now, st => (create_todo_api d now st).2
  | .apiUpdate tid d, st => (update_todo_api tid d st).2
  | .apiPatch tid c, st => (toggle_todo_complete tid c st).2
  | .apiDelete tid, st => (delete_todo_api tid st).2

/-- The id returned by the operation if it is a successful create
(the `create_todo` tool returns the new record's id, as does
`POST /api/todos`); `none` otherwise. -/
def MainOp.createdId : MainOp → MainState → Option Int
  | .tool name args _, st =>
    if name == some "create_todo" && !pyFalsyStr args.title then some st.nextId else none
  | .apiCreate d _, st =>
    if (pyStrip (d.title.getD "")).isEmpty then none else some st.nextId
  | _, _ => none

/-- Run a sequence of operations from a state. -/
def runOps (ops : List MainOp) (st : MainState) : MainState :=
  ops.foldl (fun s op => op.exec s) st

/-- The ids assigned by the successful creates of a sequence, in order. -/
def assignedIds : List MainOp → MainState → List Int
  | [], _ => []
  | op :: ops, st =>
    (op.createdId st).toList ++ assignedIds ops (op.exec st)

/-! ## Flask model (`src/app.py`, `src/todo_service.py`, `src/models.py`)

The SQLAlchemy session over the `todos` table is modelled as an in-memory
row list with an increasing identity counter (database identity assignment
and `commit`/`rollback` are collapsed into direct state passing: every
service error path returns before mutating, so `rollback` is the identity).
Timestamps are abstract integers threaded in as `now`. -/

/-- A row of the `todos` table (`src/models.py` 10-28).  `description` is
nullable; `updated_at` is refreshed when a mutation is flushed. -/
structure TodoRow where
  id : Int
  title : String
  description : Option String
  completed : Bool
  priority : String
  created_at : Int
  updated_at : Int
  deriving DecidableEq, Repr

/-- Abstract rendering of a timestamp (`datetime.isoformat()`); no claim
reads these texts. -/
def isoStr (n : Int) : String := toString n

/-- Python `str(todo.to_dict())` (`src/models.py` 30-44). -/
def TodoRow.pyDict (r : TodoRow) : String :=
  "\x7b" ++ pyQuote "id" ++ ": " ++ toString r.id ++ ", " ++
  pyQuote "title" ++ ": " ++ pyQuote r.title ++ ", " ++
  pyQuote "description" ++ ": " ++ pyOptStr r.description ++ ", " ++
  pyQuote "completed" ++ ": " ++ pyBool r.completed ++ ", " ++
  pyQuote "priority" ++ ": " ++ pyQuote r.priority ++ ", " ++
  pyQuote "created_at" ++ ": " ++ pyQuote (isoStr r.created_at) ++ ", " ++
  pyQuote "updated_at" ++ ": " ++ pyQuote (isoStr r.updated_at) ++ "\x7d"

/-- The database state: rows in insertion order plus the identity counter. -/
structure FlaskDB where
  rows : List TodoRow
  nextId : Int
  deriving DecidableEq, Repr

/-- Empty database. -/
def FlaskDB.init : FlaskDB := ⟨[], 1⟩

/-- `Todo.query.get(todo_id)`. -/
def FlaskDB.getRow (db : FlaskDB) (tid : Int) : Option TodoRow :=
  db.rows.find? (fun r => r.id == tid)

/-- Result dictionaries of `TodoService` operations:
`{'success': True, 'todo': ...}`, `{'success': True, 'message': ...}` or
`{'success': False, 'error': ...}`. -/
inductive SvcResult where
  | success (t : TodoRow) : SvcResult
  | successMsg (m : String) : SvcResult
  | failure (e : String) : SvcResult
  deriving DecidableEq, Repr

/-- Whether the result dictionary has `'success': True`. -/
def SvcResult.ok : SvcResult → Bool
  | .success _ => true
  | .successMsg _ => true
  | .failure _ => false

/-- Python `str(result)` of a service result dictionary. -/
def SvcResult.pyStr : SvcResult → String
  | .success t =>
    "\x7b" ++ pyQuote "success" ++ ": True, " ++ pyQuote "todo" ++ ": " ++ t.pyDict ++ "\x7d"
  | .successMsg m =>
    "\x7b" ++ pyQuote "success" ++ ": True, " ++ pyQuote "message" ++ ": " ++ pyQuote m ++ "\x7d"
  | .failure e =>
    "\x7b" ++ pyQuote "success" ++ ": False, " ++ pyQuote "error" ++ ": " ++ pyQuote e ++ "\x7d"

/-- Python `not title or not title.strip()`: the title is `None`, empty, or
whitespace-only. -/
def blankTitle : Option String → Bool
  | none => true
  | some s => (pyStrip s).isEmpty

namespace TodoService

/-- `TodoService.create_todo` (`src/todo_service.py` 16-65).  A blank title
fails; an out-of-range priority is coerced to `'medium'`; the stored
description is `description.strip() if description else None`. -/
def create_todo (title description : Option String) (priority : String)
    (now : Int) (db : FlaskDB) : SvcResult × FlaskDB :=
  if blankTitle title then
    (.failure "Title is required", db)
  else
    let p := if priority ∈ allowedPriorities then priority else "medium"
    let row : TodoRow :=
      { id := db.nextId
        title := pyStrip (title.getD "")
        description := match description with
          | none => none
          | some d => if d.isEmpty then none else some (pyStrip d)
        completed := false
        priority := p
        created_at := now
        updated_at := now }
    (.success row, ⟨db.rows ++ [row], db.nextId + 1⟩)

/-- Descending insertion into a list ordered by `created_at` (the model of
`order_by(Todo.created_at.desc())`). -/
def insertDesc (t : TodoRow) : List TodoRow → List TodoRow
  | [] => [t]
  | x :: xs =>
    if t.created_at ≤ x.created_at then x :: insertDesc t xs else t :: x :: xs

/-- Sort rows by `created_at`, descending. -/
def sortByCreatedDesc (l : List TodoRow) : List TodoRow :=
  l.foldr insertDesc []

/-- `TodoService.get_todos` (`src/todo_service.py` 67-90): optional filter
by completion, then `order_by(Todo.created_at.desc())`. -/
def get_todos (filter_completed : Option Bool) (db : FlaskDB) : List TodoRow :=
  let q := match filter_completed with
    | none => db.rows
    | some b => db.rows.filter (fun r => r.completed == b)
  sortByCreatedDesc q

/-- `TodoService.update_todo` (`src/todo_service.py` 109-171).
`Todo.query.get(None)` is `None`, so an absent `todo_id` reports not-found.
A supplied title must be non-blank (error before any mutation); a supplied
description is stored as `description.strip() if description else None`; a
supplied priority is applied only when allowed; `updated_at` is refreshed
when some attribute was assigned (the ORM flushes an UPDATE only then). -/
def update_todo (todo_id : Option Int) (title description priority : Option String)
    (completed : Option Bool) (now : Int) (db : FlaskDB) : SvcResult × FlaskDB :=
  match todo_id with
  | none => (.failure "Todo not found", db)
  | some tid =>
    match db.getRow tid with
    | none => (.failure "Todo not found", db)
    | some row =>
      let titleStep : Option TodoRow :=
        match title with
        | none => some row
        | some t => if (pyStrip t).isEmpty then none else some { row with title := pyStrip t }
      match titleStep with
      | none => (.failure "Title cannot be empty", db)
      | some r1 =>
        let r2 := match description with
          | none => r1
          | some d =>
            { r1 with description := if d.isEmpty then none else some (pyStrip d) }
        let r3 := match priority with
          | none => r2
          | some p => if p ∈ allowedPriorities then { r2 with priority := p } else r2
        let r4 := match completed with
          | none => r3
          | some c => { r3 with completed := c }
        let touched := title.isSome || description.isSome ||
          (match priority with
           | some p => decide (p ∈ allowedPriorities)
           | none => false) || completed.isSome
        let r5 := if touched then { r4 with updated_at := now } else r4
        (.success r5,
         ⟨db.rows.map (fun r => if r.id == tid then r5 else r), db.nextId⟩)

/-- `TodoService.delete_todo` (`src/todo_service.py` 173-211). -/
def delete_todo (todo_id : Option Int) (db : FlaskDB) : SvcResult × FlaskDB :=
  match todo_id with
  | none => (.failure "Todo not found", db)
  | some tid =>
    match db.getRow tid with
    | none => (.failure "Todo not found", db)
    | some _ =>
      (.successMsg "Todo deleted successfully",
       ⟨db.rows.filter (fun r => r.id != tid), db.nextId⟩)

/-- `TodoService.mark_todo_complete` (`src/todo_service.py` 213-227). -/
def mark_todo_complete (todo_id : Option Int) (completed : Bool) (now : Int)
    (db : FlaskDB) : SvcResult × FlaskDB :=
  update_todo todo_id none none none (some completed) now db

end TodoService

/-! ### The Flask `/mcp` JSON-RPC dispatcher (`src/app.py` 147-367) -/

/-- `initialize` result payload (app.py 166-179). -/
def flaskInitResult : JVal :=
  .jobj [("protocolVersion", .jstr "2024-11-05"),
         ("capabilities", .jobj [("tools", .jobj [])]),
         ("serverInfo", .jobj [("name", .jstr "todo-mcp-server"), ("version", .jstr "1.0.0")])]

/-- `tools/list` result payload (app.py 186-293), the five descriptors. -/
def flaskToolsResult : JVal :=
  .jobj [("tools", .jarr [
    .jobj [("name", .jstr "create_todo"),
      ("description", .jstr "Create a new todo item"),
      ("inputSchema", .jobj [("type", .jstr "object"),
        ("properties", .jobj [
          ("title", .jobj [("type", .jstr "string"),
                           ("description", .jstr "Title of the todo item")]),
          ("description", .jobj [("type", .jstr "string"),
                                 ("description", .jstr "Optional description")]),
          ("priority", .jobj [("type", .jstr "string"),
                              ("enum", .jarr [.jstr "low", .jstr "medium", .jstr "high"]),
                              ("description", .jstr "Priority level")])]),
        ("required", .jarr [.jstr "title"])])],
    .jobj [("name", .jstr "list_todos"),
      ("description", .jstr "Get all todo items"),
      ("inputSchema", .jobj [("type", .jstr "object"),
        ("properties", .jobj [
          ("filter_completed", .jobj [("type", .jstr "boolean"),
                                      ("description", .jstr "Filter by completion status")])])])],
    .jobj [("name", .jstr "update_todo"),
      ("description", .jstr "Update an existing todo item"),
      ("inputSchema", .jobj [("type", .jstr "object"),
        ("properties", .jobj [
          ("todo_id", .jobj [("type", .jstr "integer"),
                             ("description", .jstr "ID of the todo to update")]),
          ("title", .jobj [("type", .jstr "string"), ("description", .jstr "New title")]),
          ("description", .jobj [("type", .jstr "string"),
                                 ("description", .jstr "New description")]),
          ("priority", .jobj [("type", .jstr "string"),
                              ("enum", .jarr [.jstr "low", .jstr "medium", .jstr "high"]),
                              ("description", .jstr "Priority level")]),
          ("completed", .jobj [("type", .jstr "boolean"),
                               ("description", .jstr "Completion status")])]),
        ("required", .jarr [.jstr "todo_id"])])],
    .jobj [("name", .jstr "delete_todo"),
      ("description", .jstr "Delete a todo item"),
      ("inputSchema", .jobj [("type", .jstr "object"),
        ("properties", .jobj [
          ("todo_id", .jobj [("type", .jstr "integer"),
                             ("description", .jstr "ID of the todo to delete")])]),
        ("required", .jarr [.jstr "todo_id"])])],
    .jobj [("name", .jstr "mark_todo_complete"),
      ("description", .jstr "Mark a todo as complete"),
      ("inputSchema", .jobj [("type", .jstr "object"),
        ("properties", .jobj [
          ("todo_id", .jobj [("type", .jstr "integer"),
                             ("description", .jstr "ID of the todo to mark")]),
          ("completed", .jobj [("type", .jstr "boolean"),
                               ("description", .jstr "Completion status"),
                               ("default", .jbool true)])]),
        ("required", .jarr [.jstr "todo_id"])])]])]

/-- The malformed-request envelope of app.py 155-158; note that it carries
no `id` field at all. -/
def flaskMalformedEnv : JVal :=
  .jobj [("jsonrpc", .jstr "2.0"),
         ("error", .jobj [("code", .jnum (-32600)), ("message", .jstr "Invalid Request")])]

/-- Request body of the Flask `/mcp` endpoint: `badJson` when
`request.get_json()` raises, `noBody` when it returns a falsy value
(`null` body), otherwise the parsed JSON object. -/
inductive FlaskReq where
  | badJson : FlaskReq
  | noBody : FlaskReq
  | obj (fs : List (String × JVal)) : FlaskReq

/-- Outcome of one POST to the Flask `/mcp` endpoint: a JSON body with an
HTTP status, or the empty `('', 204)` response. -/
inductive FlaskOut where
  | json (status : Nat) (body : JVal) : FlaskOut
  | empty (status : Nat) : FlaskOut

/-- `mcp_endpoint` (app.py 147-367).  An unparseable body raises inside the
`try`, and the `except` block answers `-32603` with a `null` id and HTTP
500.  An empty/absent body or one without `method` answers the `-32600`
envelope with HTTP 400.  `notifications/initialized` answers `('', 204)`.
`tools/call` dispatches on `params.name`; an unknown tool answers `-32601`
with HTTP 400; a non-object `params` or `arguments` raises `AttributeError`,
recovered as `-32603` with the echoed id and HTTP 500.  Any other method
answers `-32601` with HTTP 400. -/
def flask_mcp_endpoint (req : FlaskReq) (now : Int) (db : FlaskDB) :
    FlaskOut × FlaskDB :=
  match req with
  | .badJson =>
    (.json 500 (rpcError .jnull (-32603)
      "Internal error: 400 Bad Request: The browser (or proxy) sent a request that this server could not understand."), db)
  | .noBody => (.json 400 flaskMalformedEnv, db)
  | .obj fs =>
    match jget fs "method" with
    | none => (.json 400 flaskMalformedEnv, db)
    | some mth =>
      let rid := (jget fs "id").getD .jnull
      match mth with
      | .jstr "initialize" => (.json 200 (rpcResult rid flaskInitResult), db)
      | .jstr "notifications/initialized" => (.empty 204, db)
      | .jstr "tools/list" => (.json 200 (rpcResult rid flaskToolsResult), db)
      | .jstr "tools/call" =>
        (match (jget fs "params").getD (.jobj []) with
         | .jobj pfs =>
           (match (jget pfs "arguments").getD (.jobj []) with
            | .jobj afs =>
              let toolName := jget pfs "name"
              (match toolName with
               | some (.jstr "create_todo") =>
                 let rdb := TodoService.create_todo (jGetStr afs "title")
                   (some ((jGetStr afs "description").getD ""))
                   ((jGetStr afs "priority").getD "medium") now db
                 (.json 200 (rpcResult rid (contentJson rdb.1.pyStr)), rdb.2)
               | some (.jstr "list_todos") =>
                 let l := TodoService.get_todos (jGetBool afs "filter_completed") db
                 (.json 200 (rpcResult rid (contentJson
                   ("[" ++ String.intercalate ", " (l.map TodoRow.pyDict) ++ "]"))), db)
               | some (.jstr "update_todo") =>
                 let rdb := TodoService.update_todo (jGetInt afs "todo_id")
                   (jGetStr afs "title") (jGetStr afs "description")
                   (jGetStr afs "priority") (jGetBool afs "completed") now db
                 (.json 200 (rpcResult rid (contentJson rdb.1.pyStr)), rdb.2)
               | some (.jstr "delete_todo") =>
                 let rdb := TodoService.delete_todo (jGetInt afs "todo_id") db
                 (.json 200 (rpcResult rid (contentJson rdb.1.pyStr)), rdb.2)
               | some (.jstr "mark_todo_complete") =>
                 let rdb := TodoService.mark_todo_complete (jGetInt afs "todo_id")
                   ((jGetBool afs "completed").getD true) now db
                 (.json 200 (rpcResult rid (contentJson rdb.1.pyStr)), rdb.2)
               | other =>
                 (.json 400 (rpcError rid (-32601)
                   ("Unknown tool: " ++ (other.map jvalRender).getD "None")), db))
            | v =>
              (.json 500 (rpcError rid (-32603)
                ("Internal error: '" ++ jvalRender v ++ "' object has no attribute 'get'")), db))
         | v =>
           (.json 500 (rpcError rid (-32603)
             ("Internal error: '" ++ jvalRender v ++ "' object has no attribute 'get'")), db))
      | m =>
        (.json 400 (rpcError rid (-32601) ("Unknown method: " ++ jvalRender m)), db)

/-! ## Store lemmas -/

theorem Storage.lookup_eq_some {n : Int} {l : Storage} {t : Todo}
    (h : Storage.lookup n l = some t) : (n, t) ∈ l := by
  unfold Storage.lookup at h
  rcases hf : l.find? (fun p => p.1 == n) with _ | p
  · simp [hf] at h
  · have hp := List.find?_some hf
    have hm := List.mem_of_find?_eq_some hf
    simp [hf] at h
    simp at hp
    rcases p with ⟨k, v⟩
    simp_all

theorem Storage.mem_setPy {l : Storage} {n : Int} {v : Todo} {p : Int × Todo}
    (h : p ∈ Storage.setPy n v l) : p = (n, v) ∨ p ∈ l := by
  induction l with
  | nil => simp [Storage.setPy] at h; simp [h]
  | cons q rest ih =>
    rcases q with ⟨k, w⟩
    by_cases hk : k = n
    · subst hk
      simp [Storage.setPy] at h
      rcases h with h | h
      · left; exact h
      · right; simp [h]
    · simp [Storage.setPy, hk] at h
      rcases h with h | h
      · right; simp [h]
      · rcases ih h with h' | h'
        · left; exact h'
        · right; simp [h']

theorem Storage.setPy_keys_fresh {l : Storage} {n : Int} (v : Todo)
    (h : ∀ p ∈ l, p.1 ≠ n) :
    (Storage.setPy n v l).map Prod.fst = l.map Prod.fst ++ [n] := by
  induction l with
  | nil => simp [Storage.setPy]
  | cons q rest ih =>
    rcases q with ⟨k, w⟩
    have hk : k ≠ n := h (k, w) (by simp)
    simp [Storage.setPy, hk]
    exact ih (fun p hp => h p (by simp [hp]))

theorem Storage.setPy_keys_mem {l : Storage} {n : Int} (v : Todo) {t : Todo}
    (h : Storage.lookup n l = some t) :
    (Storage.setPy n v l).map Prod.fst = l.map Prod.fst := by
  induction l with
  | nil => simp [Storage.lookup] at h
  | cons q rest ih =>
    rcases q with ⟨k, w⟩
    by_cases hk : k = n
    · subst hk
      simp [Storage.setPy]
    · simp [Storage.setPy, hk]
      refine ih ?_
      unfold Storage.lookup at h ⊢
      rwa [List.find?_cons_of_neg _ (by simp [hk])] at h

theorem Storage.pop_keys_sublist (n : Int) (l : Storage) :
    ((Storage.pop n l).map Prod.fst).Sublist (l.map Prod.fst) :=
  (List.filter_sublist l).map Prod.fst

theorem Storage.mem_pop {n : Int} {l : Storage} {p : Int × Todo}
    (h : p ∈ Storage.pop n l) : p ∈ l :=
  List.mem_of_mem_filter h

theorem Storage.lookup_setPy_self (n : Int) (v : Todo) (l : Storage) :
    Storage.lookup n (Storage.setPy n v l) = some v := by
  induction l with
  | nil => simp [Storage.setPy, Storage.lookup, List.find?]
  | cons q rest ih =>
    rcases q with ⟨k, w⟩
    by_cases hk : k = n
    · subst hk; simp [Storage.setPy, Storage.lookup, List.find?]
    · simp [Storage.setPy, hk, Storage.lookup, List.find?] at ih ⊢
      simpa [hk] using ih

/-! ## Claim C9: PATCH complete toggles when the key is absent -/

/-- C9.  In the FastAPI REST path, `PATCH /api/todos/{id}/complete` on an
existing task with a body that lacks the `completed` key negates the task's
current completed flag; when the key is present, completed is set to the
boolean coercion of its value.  All other fields and the rest of the store
entry's position are untouched. -/
theorem patch_toggles_completed (tid : Int) (cf : Option JVal) (st : MainState)
    (t : Todo) (h : Storage.lookup tid st.storage = some t) :
    ∃ t', toggle_todo_complete tid cf st
        = (.ok t', ⟨Storage.setPy tid t' st.storage, st.nextId⟩) ∧
      t'.completed = (match cf with | none => !t.completed | some v => v.truthy) ∧
      t'.id = t.id ∧ t'.title = t.title ∧ t'.description = t.description ∧
      t'.priority = t.priority ∧ t'.created_at = t.created_at := by
  refine ⟨{ t with completed := match cf with | none => !t.completed | some v => v.truthy },
    ?_, rfl, rfl, rfl, rfl, rfl, rfl⟩
  unfold toggle_todo_complete
  rw [h]

/-- Witness for C9: toggling a stored incomplete task with an empty body
marks it completed. -/
theorem patch_toggles_completed_witness :
    ∃ t', toggle_todo_complete 1 none ⟨[(1, ⟨1, "a", "", false, "medium", "t"⟩)], 2⟩
        = (.ok t',
           ⟨Storage.setPy 1 t' [(1, ⟨1, "a", "", false, "medium", "t"⟩)], 2⟩) ∧
      t'.completed = (match (none : Option JVal) with
        | none => !false
        | some v => v.truthy) ∧
      t'.id = 1 ∧ t'.title = "a" ∧ t'.description = "" ∧
      t'.priority = "medium" ∧ t'.created_at = "t" :=
  patch_toggles_completed 1 none ⟨[(1, ⟨1, "a", "", false, "medium", "t"⟩)], 2⟩
    ⟨1, "a", "", false, "medium", "t"⟩ rfl

/-! ## Claim C10: an out-of-range priority in an update is silently ignored -/

/-- An invalid priority behaves exactly like an absent one in
`TodoService.update_todo`. -/
theorem svc_update_invalid_priority (todo_id : Option Int)
    (title description : Option String) (p : String) (completed : Option Bool)
    (now : Int) (db : FlaskDB) (hp : p ∉ allowedPriorities) :
    TodoService.update_todo todo_id title description (some p) completed now db
      = TodoService.update_todo todo_id title description none completed now db := by
  unfold TodoService.update_todo
  cases todo_id with
  | none => rfl
  | some tid =>
    rcases hr : db.getRow tid with _ | row
    · simp [hr]
    · simp [hr, hp]

/-- An invalid priority behaves exactly like an absent one in
`update_todo_api`. -/
theorem api_update_invalid_priority (tid : Int) (d : UpdateData) (p : String)
    (st : MainState) (hp : p ∉ allowedPriorities) :
    update_todo_api tid { d with priority := some p } st
      = update_todo_api tid { d with priority := none } st := by
  unfold update_todo_api
  cases Storage.lookup tid st.storage with
  | none => rfl
  | some todo => simp [hp]

/-- C10.  In `TodoService.update_todo` and REST `PUT /api/todos/{id}`, an
update that supplies a priority outside `{low, medium, high}` behaves
exactly as if no priority had been supplied: it still reports success (under
the same conditions an update without priority would), the stored priority
is unchanged, and every other supplied field is applied normally.  The third
conjunct exhibits the success report with unchanged priority for an
existing row. -/
theorem update_invalid_priority_ignored :
    (∀ (todo_id : Option Int) (title description : Option String) (p : String)
       (completed : Option Bool) (now : Int) (db : FlaskDB),
       p ∉ allowedPriorities →
       TodoService.update_todo todo_id title description (some p) completed now db
         = TodoService.update_todo todo_id title description none completed now db) ∧
    (∀ (tid : Int) (d : UpdateData) (p : String) (st : MainState),
       p ∉ allowedPriorities →
       update_todo_api tid { d with priority := some p } st
         = update_todo_api tid { d with priority := none } st) ∧
    (∀ (tid : Int) (p : String) (completed : Option Bool) (now : Int)
       (db : FlaskDB) (r : TodoRow),
       p ∉ allowedPriorities → db.getRow tid = some r →
       ∃ r', (TodoService.update_todo (some tid) none none (some p) completed now db).1
           = .success r' ∧ r'.priority = r.priority) := by
  refine ⟨svc_update_invalid_priority, api_update_invalid_priority, ?_⟩
  intro tid p completed now db r hp hr
  cases completed <;> simp [TodoService.update_todo, hr, hp]

/-! ## Claim C8: nonexistent ids give a soft failure inside a success envelope -/

/-- A canonical `tools/call` request body. -/
def toolCallBody (idv : JVal) (name : String) (args : List (String × JVal)) : JVal :=
  .jobj [("jsonrpc", .jstr "2.0"), ("id", idv), ("method", .jstr "tools/call"),
         ("params", .jobj [("name", .jstr name), ("arguments", .jobj args)])]

/-- C8.  For every `tools/call` of `update_todo` (and the other id-taking
tools `delete_todo` and `mark_todo_complete`) with a `todo_id` not present
in the store, the store is left unchanged and the dispatcher returns a
success envelope whose result content text indicates not-found: a soft
failure inside a success response, not an RPC-level error.  The second
conjunct shows the FastAPI `/mcp/stream` envelope, the third the Flask
`/mcp` envelope (HTTP 200, `result` wrapping the service failure text). -/
theorem missing_id_soft_failure :
    (∀ (args : ToolArgs) (tid : Int) (now : String) (st : MainState),
       args.todo_id = some tid → Storage.lookup tid st.storage = none →
       handle_tools_call (some "update_todo") args now st
           = (.content ("Todo with ID " ++ toString tid ++ " not found"), st) ∧
       handle_tools_call (some "delete_todo") args now st
           = (.content ("Todo with ID " ++ toString tid ++ " not found"), st) ∧
       handle_tools_call (some "mark_todo_complete") args now st
           = (.content ("Todo with ID " ++ toString tid ++ " not found"), st)) ∧
    (∀ (tid : Int) (idv : JVal) (now : String) (st : MainState),
       Storage.lookup tid st.storage = none →
       mcp_stream_endpoint
           (some (toolCallBody idv "update_todo" [("todo_id", .jnum tid)])) now st
         = (.resp (rpcResult idv
             (contentJson ("Todo with ID " ++ toString tid ++ " not found"))), st)) ∧
    (∀ (tid : Int) (idv : JVal) (now : Int) (db : FlaskDB),
       db.getRow tid = none →
       flask_mcp_endpoint
           (.obj [("jsonrpc", .jstr "2.0"), ("id", idv), ("method", .jstr "tools/call"),
                  ("params", .jobj [("name", .jstr "update_todo"),
                                    ("arguments", .jobj [("todo_id", .jnum tid)])])])
           now db
         = (.json 200 (rpcResult idv
             (contentJson "\x7b'success': False, 'error': 'Todo not found'\x7d")), db)) := by
  refine ⟨?_, ?_, ?_⟩
  · intro args tid now st hid hlk
    refine ⟨?_, ?_, ?_⟩ <;>
      simp [handle_tools_call, knownTool, toolNames, toolUpdate, toolDelete, toolMark,
            hid, hlk]
  · intro tid idv now st hlk
    simp [mcp_stream_endpoint, toolCallBody, jget, jGetStr, jGetInt, jGetBool,
          toolArgsOf, handle_tools_call, knownTool, toolNames, toolUpdate, hlk]
  · intro tid idv now db hr
    simp [flask_mcp_endpoint, jget, jGetStr, jGetInt, jGetBool,
          TodoService.update_todo, hr, SvcResult.pyStr, pyQuote]

/-- Witness for C8 at id 999 on the empty store and empty database. -/
theorem missing_id_soft_failure_witness :
    (handle_tools_call (some "update_todo") { todo_id := some 999 } "t" MainState.init
         = (.content ("Todo with ID " ++ toString (999 : Int) ++ " not found"),
            MainState.init) ∧
     handle_tools_call (some "delete_todo") { todo_id := some 999 } "t" MainState.init
         = (.content ("Todo with ID " ++ toString (999 : Int) ++ " not found"),
            MainState.init) ∧
     handle_tools_call (some "mark_todo_complete") { todo_id := some 999 } "t"
         MainState.init
         = (.content ("Todo with ID " ++ toString (999 : Int) ++ " not found"),
            MainState.init)) ∧
    (mcp_stream_endpoint
         (some (toolCallBody (.jnum 7) "update_todo" [("todo_id", .jnum 999)])) "t"
         MainState.init
       = (.resp (rpcResult (.jnum 7)
           (contentJson ("Todo with ID " ++ toString (999 : Int) ++ " not found"))),
          MainState.init)) ∧
    (flask_mcp_endpoint
         (.obj [("jsonrpc", .jstr "2.0"), ("id", .jnum 7), ("method", .jstr "tools/call"),
                ("params", .jobj [("name", .jstr "update_todo"),
                                  ("arguments", .jobj [("todo_id", .jnum 999)])])])
         5 FlaskDB.init
       = (.json 200 (rpcResult (.jnum 7)
           (contentJson "\x7b'success': False, 'error': 'Todo not found'\x7d")),
          FlaskDB.init)) :=
  ⟨missing_id_soft_failure.1 { todo_id := some 999 } 999 "t" MainState.init rfl rfl,
   missing_id_soft_failure.2.1 999 (.jnum 7) "t" MainState.init rfl,
   missing_id_soft_failure.2.2 999 (.jnum 7) 5 FlaskDB.init rfl⟩

/-! ## Claim C2: unknown tool names

The claim says an unknown tool name produces a tool-level error in the
result content and never a transport-level failure.  The code does the
opposite on both dispatchers: `handle_tools_call` raises
`HTTPException(400)`, which the FastAPI endpoint converts into a `-32603`
JSON-RPC error envelope, and the Flask endpoint answers a `-32601` error
envelope with HTTP status 400. -/

/-- C2 counterexample.  Calling the unknown tool `foo_tool` yields a
JSON-RPC error envelope from the FastAPI dispatcher (code `-32603`, no
`result` field) and an HTTP 400 error envelope (code `-32601`) from the
Flask dispatcher — both transport-level failures. -/
theorem unknown_tool_counterexample :
    mcp_stream_endpoint (some (toolCallBody (.jnum 1) "foo_tool" [])) "t" MainState.init
      = (.resp (rpcError (.jnum 1) (-32603)
          "Internal error: 400: Tool 'foo_tool' not found"), MainState.init) ∧
    (rpcError (.jnum 1) (-32603)
        "Internal error: 400: Tool 'foo_tool' not found").hasKey "error" = true ∧
    (rpcError (.jnum 1) (-32603)
        "Internal error: 400: Tool 'foo_tool' not found").hasKey "result" = false ∧
    flask_mcp_endpoint
        (.obj [("jsonrpc", .jstr "2.0"), ("id", .jnum 1), ("method", .jstr "tools/call"),
               ("params", .jobj [("name", .jstr "foo_tool"), ("arguments", .jobj [])])])
        0 FlaskDB.init
      = (.json 400 (rpcError (.jnum 1) (-32601) "Unknown tool: foo_tool"), FlaskDB.init) :=
  ⟨rfl, rfl, rfl, rfl⟩

/-- C2 as amended.  For every tool name outside the five-entry manifest, a
`tools/call` is answered by a JSON-RPC **error** envelope, with the store
untouched: the FastAPI dispatcher catches the `HTTPException(400)` raised
by `handle_tools_call` and renders code `-32603` with the unknown-tool
detail; the Flask dispatcher answers code `-32601` with HTTP 400. -/
theorem unknown_tool_rpc_error (n : String) (hn : n ∉ toolNames) :
    (∀ (args : ToolArgs) (now : String) (st : MainState),
       handle_tools_call (some n) args now st
         = (.httpError 400 ("Tool '" ++ n ++ "' not found"), st)) ∧
    (∀ (idv : JVal) (aargs : List (String × JVal)) (now : String) (st : MainState),
       mcp_stream_endpoint (some (toolCallBody idv n aargs)) now st
         = (.resp (rpcError idv (-32603)
             ("Internal error: 400: " ++ ("Tool '" ++ n ++ "' not found"))), st)) ∧
    (∀ (idv : JVal) (aargs : List (String × JVal)) (now : Int) (db : FlaskDB),
       flask_mcp_endpoint
           (.obj [("jsonrpc", .jstr "2.0"), ("id", idv), ("method", .jstr "tools/call"),
                  ("params", .jobj [("name", .jstr n), ("arguments", .jobj aargs)])])
           now db
         = (.json 400 (rpcError idv (-32601) ("Unknown tool: " ++ n)), db)) := by
  have hc : toolNames.contains n = false := by simpa [toolNames] using hn
  have hne : n ≠ "create_todo" ∧ n ≠ "list_todos" ∧ n ≠ "update_todo" ∧
      n ≠ "delete_todo" ∧ n ≠ "mark_todo_complete" := by
    simp [toolNames] at hn; exact hn
  refine ⟨?_, ?_, ?_⟩
  · intro args now st
    simp [handle_tools_call, knownTool, hc, hn, nameRender]
  · intro idv aargs now st
    simp [mcp_stream_endpoint, toolCallBody, jget, jGetStr, handle_tools_call,
          knownTool, hc, hn, nameRender]
    rfl
  · intro idv aargs now db
    obtain ⟨h1, h2, h3, h4, h5⟩ := hne
    simp [flask_mcp_endpoint, jget, h1, h2, h3, h4, h5, jvalRender]

/-- Witness for C2 as amended, at the unknown name `"foo"`. -/
theorem unknown_tool_rpc_error_witness :
    (∀ (args : ToolArgs) (now : String) (st : MainState),
       handle_tools_call (some "foo") args now st
         = (.httpError 400 ("Tool '" ++ "foo" ++ "' not found"), st)) ∧
    (∀ (idv : JVal) (aargs : List (String × JVal)) (now : String) (st : MainState),
       mcp_stream_endpoint (some (toolCallBody idv "foo" aargs)) now st
         = (.resp (rpcError idv (-32603)
             ("Internal error: 400: " ++ ("Tool '" ++ "foo" ++ "' not found"))), st)) ∧
    (∀ (idv : JVal) (aargs : List (String × JVal)) (now : Int) (db : FlaskDB),
       flask_mcp_endpoint
           (.obj [("jsonrpc", .jstr "2.0"), ("id", idv), ("method", .jstr "tools/call"),
                  ("params", .jobj [("name", .jstr "foo"), ("arguments", .jobj aargs)])])
           now db
         = (.json 400 (rpcError idv (-32601) ("Unknown tool: " ++ "foo")), db)) :=
  unknown_tool_rpc_error "foo" (by decide)

/-! ## Claim C3: error codes for malformed requests

The claim says every malformed request (unparseable body or missing
`method`) is answered with code `-32600`.  Only the Flask dispatcher's
parsed-body-without-method path does that: unparseable bodies are answered
`-32603` on both dispatchers, and the FastAPI dispatcher answers `-32601`
(`"Method 'None' not found"`) when `method` is absent. -/

/-- C3 counterexample.  On the FastAPI `/mcp/stream` dispatcher an
unparseable body is answered with code `-32603` and a body without
`method` with code `-32601` — neither is the claimed `-32600`. -/
theorem malformed_code_counterexample :
    (mcp_stream_endpoint none "t" MainState.init).1
      = .resp (rpcError .jnull (-32603)
          "Internal error: Expecting value: line 1 column 1 (char 0)") ∧
    (rpcError .jnull (-32603)
        "Internal error: Expecting value: line 1 column 1 (char 0)").errCode
      = some (-32603) ∧
    (mcp_stream_endpoint (some (.jobj [("id", .jnum 1)])) "t" MainState.init).1
      = .resp (rpcError (.jnum 1) (-32601) "Method 'None' not found") ∧
    (rpcError (.jnum 1) (-32601) "Method 'None' not found").errCode = some (-32601) ∧
    (-32603 : Int) ≠ -32600 ∧ (-32601 : Int) ≠ -32600 :=
  ⟨rfl, rfl, rfl, rfl, by decide, by decide⟩

/-- C3 as amended.  Only the Flask dispatcher answers `-32600`, and only
for a parsed body that is empty or lacks `method`; unparseable bodies are
answered `-32603` on both dispatchers (HTTP 500 on Flask), and a parsed
body without `method` is answered `-32601` on the FastAPI dispatcher. -/
theorem malformed_request_codes :
    (∀ (now : String) (st : MainState),
       ∃ v, mcp_stream_endpoint none now st = (.resp v, st) ∧
         v.errCode = some (-32603)) ∧
    (∀ (fs : List (String × JVal)) (now : String) (st : MainState),
       jget fs "method" = none →
       ∃ v, mcp_stream_endpoint (some (.jobj fs)) now st = (.resp v, st) ∧
         v.errCode = some (-32601)) ∧
    (∀ (now : Int) (db : FlaskDB),
       ∃ v, flask_mcp_endpoint .badJson now db = (.json 500 v, db) ∧
         v.errCode = some (-32603)) ∧
    (∀ (now : Int) (db : FlaskDB),
       flask_mcp_endpoint .noBody now db = (.json 400 flaskMalformedEnv, db) ∧
       flaskMalformedEnv.errCode = some (-32600)) ∧
    (∀ (fs : List (String × JVal)) (now : Int) (db : FlaskDB),
       jget fs "method" = none →
       flask_mcp_endpoint (.obj fs) now db = (.json 400 flaskMalformedEnv, db)) := by
  refine ⟨?_, ?_, ?_, ?_, ?_⟩
  · intro now st
    exact ⟨_, rfl, rfl⟩
  · intro fs now st h
    simp only [mcp_stream_endpoint, h]
    exact ⟨_, rfl, rfl⟩
  · intro now db
    exact ⟨_, rfl, rfl⟩
  · intro now db
    exact ⟨rfl, rfl⟩
  · intro fs now db h
    simp [flask_mcp_endpoint, h]

/-- Witness for C3 as amended, at the empty parsed body and the empty
store. -/
theorem malformed_request_codes_witness :
    (∃ v, mcp_stream_endpoint none "t" MainState.init = (.resp v, MainState.init) ∧
       v.errCode = some (-32603)) ∧
    (∃ v, mcp_stream_endpoint (some (.jobj [])) "t" MainState.init
       = (.resp v, MainState.init) ∧ v.errCode = some (-32601)) ∧
    (∃ v, flask_mcp_endpoint .badJson 0 FlaskDB.init = (.json 500 v, FlaskDB.init) ∧
       v.errCode = some (-32603)) ∧
    (flask_mcp_endpoint .noBody 0 FlaskDB.init
       = (.json 400 flaskMalformedEnv, FlaskDB.init) ∧
     flaskMalformedEnv.errCode = some (-32600)) ∧
    (flask_mcp_endpoint (.obj []) 0 FlaskDB.init
       = (.json 400 flaskMalformedEnv, FlaskDB.init)) :=
  ⟨malformed_request_codes.1 "t" MainState.init,
   malformed_request_codes.2.1 [] "t" MainState.init rfl,
   malformed_request_codes.2.2.1 0 FlaskDB.init,
   malformed_request_codes.2.2.2.1 0 FlaskDB.init,
   malformed_request_codes.2.2.2.2 [] 0 FlaskDB.init rfl⟩

/-! ## Claim C4: ids are strictly increasing and never reused -/

theorem toolCreate_nextId (args : ToolArgs) (now : String) (st : MainState) :
    (toolCreate args now st).2.nextId
      = if pyFalsyStr args.title then st.nextId else st.nextId + 1 := by
  unfold toolCreate
  split <;> simp_all

theorem toolUpdate_nextId (args : ToolArgs) (st : MainState) :
    (toolUpdate args st).2.nextId = st.nextId := by
  rcases h : args.todo_id with _ | tid
  · simp [toolUpdate, h]
  · rcases hl : Storage.lookup tid st.storage with _ | todo <;>
      simp [toolUpdate, h, hl]

theorem toolDelete_nextId (args : ToolArgs) (st : MainState) :
    (toolDelete args st).2.nextId = st.nextId := by
  rcases h : args.todo_id with _ | tid
  · simp [toolDelete, h]
  · rcases hl : Storage.lookup tid st.storage with _ | todo <;>
      simp [toolDelete, h, hl]

theorem toolMark_nextId (args : ToolArgs) (st : MainState) :
    (toolMark args st).2.nextId = st.nextId := by
  rcases h : args.todo_id with _ | tid
  · simp [toolMark, h]
  · rcases hl : Storage.lookup tid st.storage with _ | todo <;>
      simp [toolMark, h, hl]

/-- How `next_id` evolves with one operation: it is bumped by one exactly
when the operation is a successful create, and untouched otherwise. -/
theorem MainOp.exec_nextId (op : MainOp) (st : MainState) :
    (op.exec st).nextId
      = match op.createdId st with
        | some _ => st.nextId + 1
        | none => st.nextId := by
  cases op with
  | tool name args now =>
    simp only [MainOp.exec, MainOp.createdId]
    rcases name with _ | n
    · rfl
    · by_cases h1 : n = "create_todo"
      · subst h1
        by_cases hb : pyFalsyStr args.title <;>
          simp [handle_tools_call, knownTool, toolNames, toolCreate_nextId, hb]
      · by_cases h2 : n = "list_todos"
        · subst h2; simp [handle_tools_call, knownTool, toolNames, toolList]
        · by_cases h3 : n = "update_todo"
          · subst h3
            simp [handle_tools_call, knownTool, toolNames, toolUpdate_nextId]
          · by_cases h4 : n = "delete_todo"
            · subst h4
              simp [handle_tools_call, knownTool, toolNames, toolDelete_nextId]
            · by_cases h5 : n = "mark_todo_complete"
              · subst h5
                simp [handle_tools_call, knownTool, toolNames, toolMark_nextId]
              · simp [handle_tools_call, knownTool, toolNames, h1, h2, h3, h4, h5]
  | apiCreate d now =>
    simp only [MainOp.exec, MainOp.createdId]
    unfold create_todo_api
    by_cases hb : (pyStrip (d.title.getD "")).isEmpty <;> simp [hb]
  | apiUpdate tid d =>
    simp only [MainOp.exec, MainOp.createdId]
    rcases hl : Storage.lookup tid st.storage with _ | todo
    · simp [update_todo_api, hl]
    · rcases hd : d.title with _ | ttl
      · simp [update_todo_api, hl, hd]
      · by_cases hb : (pyStrip ttl).isEmpty <;> simp [update_todo_api, hl, hd, hb]
  | apiPatch tid c =>
    simp only [MainOp.exec, MainOp.createdId]
    rcases hl : Storage.lookup tid st.storage with _ | todo <;>
      simp [toggle_todo_complete, hl]
  | apiDelete tid =>
    simp only [MainOp.exec, MainOp.createdId]
    rcases hl : Storage.lookup tid st.storage with _ | todo <;>
      simp [delete_todo_api, hl]

/-- A successful create returns the current `next_id`. -/
theorem MainOp.createdId_eq {op : MainOp} {st : MainState} {i : Int}
    (h : op.createdId st = some i) : i = st.nextId := by
  cases op with
  | tool name args now =>
    simp only [MainOp.createdId] at h
    split at h <;> simp_all
  | apiCreate d now =>
    simp only [MainOp.createdId] at h
    split at h <;> simp_all
  | apiUpdate tid d => simp [MainOp.createdId] at h
  | apiPatch tid c => simp [MainOp.createdId] at h
  | apiDelete tid => simp [MainOp.createdId] at h

/-- `next_id` never decreases. -/
theorem MainOp.exec_nextId_le (op : MainOp) (st : MainState) :
    st.nextId ≤ (op.exec st).nextId := by
  rw [MainOp.exec_nextId]
  rcases op.createdId st with _ | i <;> simp

/-- Every id assigned from a state is at least that state's `next_id`. -/
theorem assignedIds_lower_bound (ops : List MainOp) (st : MainState) :
    ∀ i ∈ assignedIds ops st, st.nextId ≤ i := by
  induction ops generalizing st with
  | nil => simp [assignedIds]
  | cons op ops ih =>
    intro i hi
    simp only [assignedIds, List.mem_append] at hi
    rcases hi with hi | hi
    · rcases hc : op.createdId st with _ | j
      · simp [hc] at hi
      · simp [hc] at hi
        subst hi
        exact le_of_eq (MainOp.createdId_eq hc).symm
    · exact le_trans (MainOp.exec_nextId_le op st) (ih (op.exec st) i hi)

/-- Helper: the ids assigned from any state are strictly increasing. -/
theorem assignedIds_pairwise (ops : List MainOp) (st : MainState) :
    (assignedIds ops st).Pairwise (· < ·) := by
  induction ops generalizing st with
  | nil => simp [assignedIds]
  | cons op ops ih =>
    simp only [assignedIds]
    rcases hc : op.createdId st with _ | i
    · simpa using ih (op.exec st)
    · simp only [Option.toList_some, List.singleton_append, List.pairwise_cons]
      refine ⟨?_, ih (op.exec st)⟩
      intro j hj
      have hlb : (op.exec st).nextId ≤ j :=
        assignedIds_lower_bound ops (op.exec st) j hj
      have hni : (op.exec st).nextId = st.nextId + 1 := by
        rw [MainOp.exec_nextId, hc]
      have hieq : i = st.nextId := MainOp.createdId_eq hc
      omega

/-- C4.  For every sequence of operations on one `main.py` store instance
(MCP tool calls and REST mutations alike), the ids handed out by the
successful creates are pairwise strictly increasing in order of
assignment: each successful create returns an id strictly greater than
every previously assigned id, so an id is never assigned again — in
particular not after its task is deleted. -/
theorem create_ids_strictly_increase (ops : List MainOp) :
    (assignedIds ops MainState.init).Pairwise (· < ·) :=
  assignedIds_pairwise ops MainState.init

/-! ## Claim C7: listing order

`main.py` lists `list(todos_storage.values())`: dict insertion order, i.e.
oldest-created first.  `TodoService.get_todos` orders by `created_at`
descending, i.e. most-recent first.  The claim asserts most-recent-first
for all paths, so it fails on the `main.py` paths. -/

/-- The structural invariant of the `main.py` store: the dict keys are
strictly increasing in insertion order, every stored record's `id` equals
its key, and every key is below `next_id`. -/
def MainInv (st : MainState) : Prop :=
  (st.storage.map Prod.fst).Pairwise (· < ·) ∧
  ∀ p ∈ st.storage, p.2.id = p.1 ∧ p.1 < st.nextId

theorem mainInv_init : MainInv MainState.init := by
  constructor <;> simp [MainState.init]

theorem inv_setPy_fresh {st : MainState} (hinv : MainInv st) (t : Todo)
    (hid : t.id = st.nextId) :
    MainInv ⟨Storage.setPy st.nextId t st.storage, st.nextId + 1⟩ := by
  obtain ⟨hkeys, hmem⟩ := hinv
  have hfresh : ∀ p ∈ st.storage, p.1 ≠ st.nextId := fun p hp =>
    ne_of_lt (hmem p hp).2
  constructor
  · rw [Storage.setPy_keys_fresh t hfresh, List.pairwise_append]
    refine ⟨hkeys, by simp, ?_⟩
    intro a ha b hb
    simp at hb
    subst hb
    rcases List.mem_map.1 ha with ⟨p, hp, rfl⟩
    exact (hmem p hp).2
  · intro p hp
    rcases Storage.mem_setPy hp with h | h
    · subst h
      refine ⟨hid, ?_⟩
      show st.nextId < st.nextId + 1
      omega
    · obtain ⟨h1, h2⟩ := hmem p h
      refine ⟨h1, ?_⟩
      show p.1 < st.nextId + 1
      omega

theorem inv_setPy_existing {st : MainState} (hinv : MainInv st) {tid : Int}
    {todo : Todo} (hl : Storage.lookup tid st.storage = some todo) (t' : Todo)
    (hid : t'.id = todo.id) :
    MainInv ⟨Storage.setPy tid t' st.storage, st.nextId⟩ := by
  obtain ⟨hkeys, hmem⟩ := hinv
  have hmemt : (tid, todo) ∈ st.storage := Storage.lookup_eq_some hl
  have htid : todo.id = tid := (hmem _ hmemt).1
  constructor
  · rw [Storage.setPy_keys_mem t' hl]; exact hkeys
  · intro p hp
    rcases Storage.mem_setPy hp with h | h
    · subst h
      exact ⟨by simp [hid, htid], by simpa using (hmem _ hmemt).2⟩
    · exact hmem p h

theorem inv_pop {st : MainState} (hinv : MainInv st) (tid : Int) :
    MainInv ⟨Storage.pop tid st.storage, st.nextId⟩ := by
  obtain ⟨hkeys, hmem⟩ := hinv
  exact ⟨List.Pairwise.sublist (Storage.pop_keys_sublist tid st.storage) hkeys,
         fun p hp => hmem p (Storage.mem_pop hp)⟩

/-- Every operation preserves the store invariant. -/
theorem MainOp.exec_inv (op : MainOp) (st : MainState) (hinv : MainInv st) :
    MainInv (op.exec st) := by
  cases op with
  | tool name args now =>
    simp only [MainOp.exec]
    rcases name with _ | n
    · simpa [handle_tools_call, knownTool] using hinv
    · by_cases h1 : n = "create_todo"
      · subst h1
        by_cases hb : pyFalsyStr args.title
        · simpa [handle_tools_call, knownTool, toolNames, toolCreate, hb] using hinv
        · simp [handle_tools_call, knownTool, toolNames, toolCreate, hb]
          exact inv_setPy_fresh hinv _ rfl
      · by_cases h2 : n = "list_todos"
        · subst h2
          simpa [handle_tools_call, knownTool, toolNames, toolList] using hinv
        · by_cases h3 : n = "update_todo"
          · subst h3
            rcases hid : args.todo_id with _ | tid
            · simpa [handle_tools_call, knownTool, toolNames, toolUpdate, hid]
                using hinv
            · rcases hl : Storage.lookup tid st.storage with _ | todo
              · simpa [handle_tools_call, knownTool, toolNames, toolUpdate, hid, hl]
                  using hinv
              · simp [handle_tools_call, knownTool, toolNames, toolUpdate, hid, hl]
                exact inv_setPy_existing hinv hl _ rfl
          · by_cases h4 : n = "delete_todo"
            · subst h4
              rcases hid : args.todo_id with _ | tid
              · simpa [handle_tools_call, knownTool, toolNames, toolDelete, hid]
                  using hinv
              · rcases hl : Storage.lookup tid st.storage with _ | todo
                · simpa [handle_tools_call, knownTool, toolNames, toolDelete, hid, hl]
                    using hinv
                · simp [handle_tools_call, knownTool, toolNames, toolDelete, hid, hl]
                  exact inv_pop hinv tid
            · by_cases h5 : n = "mark_todo_complete"
              · subst h5
                rcases hid : args.todo_id with _ | tid
                · simpa [handle_tools_call, knownTool, toolNames, toolMark, hid]
                    using hinv
                · rcases hl : Storage.lookup tid st.storage with _ | todo
                  · simpa [handle_tools_call, knownTool, toolNames, toolMark, hid, hl]
                      using hinv
                  · simp [handle_tools_call, knownTool, toolNames, toolMark, hid, hl]
                    exact inv_setPy_existing hinv hl _ rfl
              · simpa [handle_tools_call, knownTool, toolNames, h1, h2, h3, h4, h5]
                  using hinv
  | apiCreate d now =>
    simp only [MainOp.exec]
    by_cases hb : (pyStrip (d.title.getD "")).isEmpty
    · simpa [create_todo_api, hb] using hinv
    · simp [create_todo_api, hb]
      exact inv_setPy_fresh hinv _ rfl
  | apiUpdate tid d =>
    simp only [MainOp.exec]
    rcases hl : Storage.lookup tid st.storage with _ | todo
    · simpa [update_todo_api, hl] using hinv
    · rcases hd : d.title with _ | ttl
      · simp [update_todo_api, hl, hd]
        refine inv_setPy_existing hinv hl _ ?_
        rcases d.completed with _ | c <;> rcases d.priority with _ | p <;>
          rcases d.description with _ | ds <;> simp <;> split <;> simp
      · by_cases hb : (pyStrip ttl).isEmpty
        · simpa [update_todo_api, hl, hd, hb] using hinv
        · simp [update_todo_api, hl, hd, hb]
          refine inv_setPy_existing hinv hl _ ?_
          rcases d.completed with _ | c <;> rcases d.priority with _ | p <;>
            rcases d.description with _ | ds <;> simp <;> split <;> simp
  | apiPatch tid c =>
    simp only [MainOp.exec]
    rcases hl : Storage.lookup tid st.storage with _ | todo
    · simpa [toggle_todo_complete, hl] using hinv
    · simp [toggle_todo_complete, hl]
      exact inv_setPy_existing hinv hl _ rfl
  | apiDelete tid =>
    simp only [MainOp.exec]
    rcases hl : Storage.lookup tid st.storage with _ | todo
    · simpa [delete_todo_api, hl] using hinv
    · simp [delete_todo_api, hl]
      exact inv_pop hinv tid

/-- The invariant holds in every reachable state. -/
theorem runOps_inv (ops : List MainOp) : MainInv (runOps ops MainState.init) := by
  suffices h : ∀ st, MainInv st → MainInv (runOps ops st) from
    h MainState.init mainInv_init
  induction ops with
  | nil => intro st h; exact h
  | cons op ops ih =>
    intro st h
    exact ih (op.exec st) (MainOp.exec_inv op st h)

/-- Inserting below every element of a descending list lands at the end. -/
theorem insertDesc_all_ge (t : TodoRow) (l : List TodoRow)
    (h : ∀ x ∈ l, t.created_at ≤ x.created_at) :
    TodoService.insertDesc t l = l ++ [t] := by
  induction l with
  | nil => rfl
  | cons x xs ih =>
    simp only [TodoService.insertDesc, h x (by simp), if_pos, List.cons_append]
    rw [ih (fun y hy => h y (by simp [hy]))]

/-- When creation times strictly increase along the row list, sorting by
`created_at` descending is exactly reversal. -/
theorem sortDesc_of_strictly_increasing (l : List TodoRow)
    (h : (l.map TodoRow.created_at).Pairwise (· < ·)) :
    TodoService.sortByCreatedDesc l = l.reverse := by
  induction l with
  | nil => rfl
  | cons r rs ih =>
    have h' : (r.created_at :: rs.map TodoRow.created_at).Pairwise (· < ·) := by
      simpa using h
    have hpc := List.pairwise_cons.1 h'
    have hr : ∀ x ∈ rs, r.created_at < x.created_at := by
      intro x hx
      exact hpc.1 x.created_at (List.mem_map_of_mem _ hx)
    have htail : (rs.map TodoRow.created_at).Pairwise (· < ·) := hpc.2
    show TodoService.insertDesc r (TodoService.sortByCreatedDesc rs) = (r :: rs).reverse
    rw [ih htail, insertDesc_all_ge]
    · simp
    · intro x hx
      exact le_of_lt (hr x (by simpa using hx))

/-- Membership is preserved by descending insertion. -/
theorem mem_insertDesc {x t : TodoRow} {l : List TodoRow}
    (h : x ∈ TodoService.insertDesc t l) : x = t ∨ x ∈ l := by
  induction l with
  | nil => simpa [TodoService.insertDesc] using h
  | cons y ys ih =>
    simp only [TodoService.insertDesc] at h
    split at h
    · rcases List.mem_cons.1 h with h' | h'
      · right; simp [h']
      · rcases ih h' with h'' | h''
        · left; exact h''
        · right; simp [h'']
    · rcases List.mem_cons.1 h with h' | h'
      · left; exact h'
      · right; simpa using h'

/-- Membership in the sorted list implies membership in the input list. -/
theorem mem_sortDesc {r : TodoRow} {l : List TodoRow}
    (h : r ∈ TodoService.sortByCreatedDesc l) : r ∈ l := by
  induction l with
  | nil => simp [TodoService.sortByCreatedDesc] at h
  | cons y ys ih =>
    simp only [TodoService.sortByCreatedDesc, List.foldr_cons] at h ih
    rcases mem_insertDesc h with h' | h'
    · simp [h']
    · simp only [List.mem_cons]
      right
      exact ih h'

/-- C7 counterexample.  After creating task 1 then task 2 through the MCP
tool, both the `list_todos` tool and REST `GET /api/todos` produce the
sequence `[1, 2]` — creation order with the **oldest** first, not the
claimed most-recent-first order `[2, 1]`. -/
theorem list_order_counterexample :
    ((mainListTodos none (runOps
        [.tool (some "create_todo") { title := some "a" } "t1",
         .tool (some "create_todo") { title := some "b" } "t2"]
        MainState.init)).map Todo.id = [1, 2]) ∧
    ¬ ((mainListTodos none (runOps
        [.tool (some "create_todo") { title := some "a" } "t1",
         .tool (some "create_todo") { title := some "b" } "t2"]
        MainState.init)).map Todo.id).Pairwise (· > ·) := by
  exact ⟨by decide, by decide⟩

/-- C7 as amended.  The `main.py` paths (`list_todos` tool and REST
`GET /api/todos`, both `mainListTodos`) return the stored tasks in creation
order with the **oldest** first: in every reachable store the listed ids
are strictly increasing.  `TodoService.get_todos` alone returns
most-recent-first: when the rows' creation times strictly increase, the
result is the reversed (filtered) row list.  On all paths, when
`filter_completed` is supplied only tasks with that completed flag are
included. -/
theorem list_order_amended :
    (∀ (ops : List MainOp) (f : Option Bool),
       ((mainListTodos f (runOps ops MainState.init)).map Todo.id).Pairwise (· < ·)) ∧
    (∀ (f : Option Bool) (db : FlaskDB),
       (db.rows.map TodoRow.created_at).Pairwise (· < ·) →
       TodoService.get_todos f db
         = (match f with
            | none => db.rows
            | some b => db.rows.filter (fun r => r.completed == b)).reverse) ∧
    (∀ (b : Bool) (st : MainState) (t : Todo),
       t ∈ mainListTodos (some b) st → t.completed = b) ∧
    (∀ (b : Bool) (db : FlaskDB) (r : TodoRow),
       r ∈ TodoService.get_todos (some b) db → r.completed = b) := by
  refine ⟨?_, ?_, ?_, ?_⟩
  · intro ops f
    obtain ⟨hkeys, hmem⟩ := runOps_inv ops
    set st := runOps ops MainState.init with hst
    have hids : (st.storage.map Prod.snd).map Todo.id = st.storage.map Prod.fst := by
      rw [List.map_map]
      exact List.map_congr_left (fun p hp => (hmem p hp).1)
    have hvals : ((st.storage.map Prod.snd).map Todo.id).Pairwise (· < ·) := by
      rw [hids]; exact hkeys
    rcases f with _ | b
    · simpa [mainListTodos] using hvals
    · refine List.Pairwise.sublist ?_ hvals
      exact ((List.filter_sublist _).map Todo.id)
  · intro f db h
    rcases f with _ | b
    · exact sortDesc_of_strictly_increasing db.rows h
    · refine sortDesc_of_strictly_increasing _ ?_
      exact List.Pairwise.sublist ((List.filter_sublist _).map TodoRow.created_at) h
  · intro b st t ht
    simp only [mainListTodos, List.mem_filter] at ht
    simpa using ht.2
  · intro b db r hr
    have hmem : r ∈ db.rows.filter (fun r => r.completed == b) :=
      mem_sortDesc hr
    simpa using (List.mem_filter.1 hmem).2

/-- Witness for C7 as amended, on a two-row database with increasing
creation times and small concrete stores. -/
theorem list_order_amended_witness :
    ((mainListTodos none (runOps [] MainState.init)).map Todo.id).Pairwise (· < ·) ∧
    (TodoService.get_todos none
        ⟨[⟨1, "a", none, false, "medium", 1, 1⟩,
          ⟨2, "b", none, true, "medium", 2, 2⟩], 3⟩
      = (match (none : Option Bool) with
         | none => (⟨[⟨1, "a", none, false, "medium", 1, 1⟩,
                      ⟨2, "b", none, true, "medium", 2, 2⟩], 3⟩ : FlaskDB).rows
         | some b => (⟨[⟨1, "a", none, false, "medium", 1, 1⟩,
                        ⟨2, "b", none, true, "medium", 2, 2⟩], 3⟩ : FlaskDB).rows.filter
             (fun r => r.completed == b)).reverse) ∧
    ((⟨2, "x", "", true, "high", "t"⟩ : Todo).completed = true) ∧
    ((⟨2, "b", none, true, "medium", 2, 2⟩ : TodoRow).completed = true) :=
  ⟨list_order_amended.1 [] none,
   list_order_amended.2.1 none
     ⟨[⟨1, "a", none, false, "medium", 1, 1⟩,
       ⟨2, "b", none, true, "medium", 2, 2⟩], 3⟩ (by decide),
   list_order_amended.2.2.1 true ⟨[(2, ⟨2, "x", "", true, "high", "t"⟩)], 3⟩
     ⟨2, "x", "", true, "high", "t"⟩ (by decide),
   list_order_amended.2.2.2 true ⟨[⟨2, "b", none, true, "medium", 2, 2⟩], 3⟩
     ⟨2, "b", none, true, "medium", 2, 2⟩ (by decide)⟩

/-! ## Claim C1: response envelopes

The FastAPI dispatcher always returns an envelope with the echoed id and
exactly one of `result`/`error` (for unparseable bodies and JSON-object
bodies; a parseable non-object body crashes the handler, see
`mcp_stream_endpoint`).  The Flask dispatcher does too, except for two
paths: `notifications/initialized` returns an empty 204 response with no
envelope at all, and the `-32600` malformed-request envelope omits the
`id` field. -/

/-- The id a response should echo for a given request body (`null` for an
unparseable body or one without an id). -/
def reqEchoId : Option JVal → JVal
  | none => .jnull
  | some (.jobj fs) => (jget fs "id").getD .jnull
  | some _ => .jnull

/-- The FastAPI outcome is a JSON response whose body carries exactly one
of `result`/`error` and the given id. -/
def EnvelopeOK : EndpointOut × MainState → JVal → Prop
  | (.resp v, _), idv =>
    (v.hasKey "result" = true ↔ v.hasKey "error" = false) ∧ v.idField = some idv
  | (.crash, _), _ => False

/-- The Flask outcome is a JSON response whose body carries exactly one of
`result`/`error` and the given id. -/
def FlaskEnvelopeOK : FlaskOut × FlaskDB → JVal → Prop
  | (.json _ v, _), idv =>
    (v.hasKey "result" = true ↔ v.hasKey "error" = false) ∧ v.idField = some idv
  | (.empty _, _), _ => False

/-- A success envelope has `result`, no `error`, and the given id. -/
theorem rpcResult_envelope (idv r : JVal) :
    ((rpcResult idv r).hasKey "result" = true ↔ (rpcResult idv r).hasKey "error" = false) ∧
    (rpcResult idv r).idField = some idv :=
  ⟨⟨fun _ => rfl, fun _ => rfl⟩, rfl⟩

/-- An error envelope has `error`, no `result`, and the given id. -/
theorem rpcError_envelope (idv : JVal) (c : Int) (m : String) :
    ((rpcError idv c m).hasKey "result" = true ↔ (rpcError idv c m).hasKey "error" = false) ∧
    (rpcError idv c m).idField = some idv :=
  ⟨⟨fun h => Bool.noConfusion h, fun h => Bool.noConfusion h⟩, rfl⟩

/-- C1 counterexample.  A Flask `/mcp` request for method
`notifications/initialized` (with an id) is answered by the empty
`('', 204)` response: no JSON body at all, hence no echoed id and neither a
`result` nor an `error` member — the response is not a JSON envelope of any
shape. -/
theorem notifications_no_envelope_counterexample :
    flask_mcp_endpoint
        (.obj [("jsonrpc", .jstr "2.0"), ("id", .jnum 1),
               ("method", .jstr "notifications/initialized")]) 0 FlaskDB.init
      = (.empty 204, FlaskDB.init) ∧
    ¬ FlaskEnvelopeOK
        (flask_mcp_endpoint
          (.obj [("jsonrpc", .jstr "2.0"), ("id", .jnum 1),
                 ("method", .jstr "notifications/initialized")]) 0 FlaskDB.init)
        (.jnum 1) :=
  ⟨rfl, fun h => h⟩

/-- C1 as amended.  Every FastAPI `/mcp/stream` response to an unparseable
or JSON-object body is a JSON-RPC envelope carrying the echoed id (`null`
when absent or unparseable) and exactly one of `result`/`error`.  The
Flask `/mcp` dispatcher does the same for every parsed body whose `method`
differs from `notifications/initialized` (which is answered by an empty
204 with no envelope) and for unparseable bodies; its `-32600`
malformed-request envelope carries `error` only but omits the `id` field
instead of setting it to `null`. -/
theorem rpc_envelope_wellformed :
    (∀ (body : Option JVal) (now : String) (st : MainState),
       (body = none ∨ ∃ fs, body = some (.jobj fs)) →
       EnvelopeOK (mcp_stream_endpoint body now st) (reqEchoId body)) ∧
    (∀ (fs : List (String × JVal)) (m : JVal) (now : Int) (db : FlaskDB),
       jget fs "method" = some m → m ≠ .jstr "notifications/initialized" →
       FlaskEnvelopeOK (flask_mcp_endpoint (.obj fs) now db)
         ((jget fs "id").getD .jnull)) ∧
    (∀ (now : Int) (db : FlaskDB),
       FlaskEnvelopeOK (flask_mcp_endpoint .badJson now db) .jnull) ∧
    (flaskMalformedEnv.hasKey "error" = true ∧
     flaskMalformedEnv.hasKey "result" = false ∧
     flaskMalformedEnv.idField = none) := by
  refine ⟨?_, ?_, ?_, by decide, by decide, rfl⟩
  · intro body now st hb
    rcases hb with rfl | ⟨fs, rfl⟩
    · exact rpcError_envelope _ _ _
    · rcases hm : jget fs "method" with _ | m <;>
        simp only [mcp_stream_endpoint, hm] <;>
        repeat'
          first
            | exact rpcResult_envelope _ _
            | exact rpcError_envelope _ _ _
            | split
  · intro fs m now db hm hne
    simp only [flask_mcp_endpoint, hm]
    repeat'
      first
        | exact absurd rfl hne
        | exact rpcResult_envelope _ _
        | exact rpcError_envelope _ _ _
        | split
  · intro now db
    exact rpcError_envelope _ _ _

/-- Witness for C1 as amended, at concrete requests. -/
theorem rpc_envelope_wellformed_witness :
    EnvelopeOK
      (mcp_stream_endpoint (some (.jobj [("id", .jnum 9), ("method", .jstr "tools/list")]))
        "t" MainState.init)
      (reqEchoId (some (.jobj [("id", .jnum 9), ("method", .jstr "tools/list")]))) ∧
    FlaskEnvelopeOK
      (flask_mcp_endpoint (.obj [("id", .jnum 9), ("method", .jstr "initialize")])
        0 FlaskDB.init)
      ((jget [("id", .jnum 9), ("method", .jstr "initialize")] "id").getD .jnull) ∧
    FlaskEnvelopeOK (flask_mcp_endpoint .badJson 0 FlaskDB.init) .jnull :=
  ⟨rpc_envelope_wellformed.1
      (some (.jobj [("id", .jnum 9), ("method", .jstr "tools/list")])) "t"
      MainState.init (Or.inr ⟨_, rfl⟩),
   rpc_envelope_wellformed.2.1 [("id", .jnum 9), ("method", .jstr "initialize")]
      (.jstr "initialize") 0 FlaskDB.init rfl (by simp),
   rpc_envelope_wellformed.2.2.1 0 FlaskDB.init⟩

/-! ## Claim C5: blank-title validation on the three create paths

The Task Service and the REST `POST /api/todos` reject absent, empty and
whitespace-only titles.  The MCP `create_todo` tool checks only Python
falsiness (`if not title`), so a whitespace-only title is accepted and a
task is stored. -/

/-- C5 counterexample.  A `tools/call` of `create_todo` with the
whitespace-only title `" "` does not fail: it stores a task (the store
grows to one entry whose title is `" "`), although `" "` consists only of
whitespace. -/
theorem mcp_whitespace_title_accepted_counterexample :
    (pyStrip " ").isEmpty = true ∧
    (handle_tools_call (some "create_todo") { title := some " " } "t"
        MainState.init).1 ≠ .content "Error: Title is required" ∧
    (handle_tools_call (some "create_todo") { title := some " " } "t"
        MainState.init).2.storage
      = [(1, ⟨1, " ", "", false, "medium", "t"⟩)] := by
  refine ⟨by decide, by decide, by decide⟩

/-- C5 as amended.  On the Task Service and REST `POST /api/todos` paths, a
create fails (leaving the store unchanged) exactly when the title is
absent, empty or whitespace-only, and succeeds appending one new record
otherwise.  On the MCP `create_todo` path the test is only Python
falsiness: the call fails exactly when the title is absent or the empty
string, and a whitespace-only title is accepted and stored. -/
theorem create_blank_title_validation :
    (∀ (t d : Option String) (p : String) (now : Int) (db : FlaskDB),
       blankTitle t = true →
       TodoService.create_todo t d p now db = (.failure "Title is required", db)) ∧
    (∀ (t d : Option String) (p : String) (now : Int) (db : FlaskDB),
       blankTitle t = false →
       ∃ row, TodoService.create_todo t d p now db
         = (.success row, ⟨db.rows ++ [row], db.nextId + 1⟩)) ∧
    (∀ (d : CreateData) (now : String) (st : MainState),
       blankTitle d.title = true →
       create_todo_api d now st = (.exc 400 "400: Title is required", st)) ∧
    (∀ (d : CreateData) (now : String) (st : MainState),
       blankTitle d.title = false →
       ∃ t, create_todo_api d now st
         = (.ok t, ⟨Storage.setPy st.nextId t st.storage, st.nextId + 1⟩)) ∧
    (∀ (args : ToolArgs) (now : String) (st : MainState),
       pyFalsyStr args.title = true →
       handle_tools_call (some "create_todo") args now st
         = (.content "Error: Title is required", st)) ∧
    (∀ (args : ToolArgs) (now : String) (st : MainState),
       pyFalsyStr args.title = false →
       ∃ t : Todo, handle_tools_call (some "create_todo") args now st
         = (.content ("Created todo: " ++ t.pyDict),
            ⟨Storage.setPy st.nextId t st.storage, st.nextId + 1⟩)) := by
  refine ⟨?_, ?_, ?_, ?_, ?_, ?_⟩
  · intro t d p now db h
    simp [TodoService.create_todo, h]
  · intro t d p now db h
    simp [TodoService.create_todo, h]
  · intro d now st h
    rcases hd : d.title with _ | s
    · simp [create_todo_api, hd]
      decide
    · rw [hd] at h
      simp only [blankTitle] at h
      simp [create_todo_api, hd, h]
  · intro d now st h
    rcases hd : d.title with _ | s
    · rw [hd] at h; simp [blankTitle] at h
    · rw [hd] at h
      simp only [blankTitle] at h
      simp [create_todo_api, hd, h]
  · intro args now st h
    simp [handle_tools_call, knownTool, toolNames, toolCreate, h]
  · intro args now st h
    simp [handle_tools_call, knownTool, toolNames, toolCreate, h]
    exact ⟨_, rfl, rfl⟩

/-- Witness for C5 as amended: whitespace-only fails on the service and
REST paths, empty fails on the MCP path, and non-blank titles succeed. -/
theorem create_blank_title_validation_witness :
    TodoService.create_todo (some "   ") none "medium" 0 FlaskDB.init
      = (.failure "Title is required", FlaskDB.init) ∧
    (∃ row, TodoService.create_todo (some "a") none "medium" 0 FlaskDB.init
      = (.success row, ⟨FlaskDB.init.rows ++ [row], FlaskDB.init.nextId + 1⟩)) ∧
    create_todo_api { title := some " " } "t" MainState.init
      = (.exc 400 "400: Title is required", MainState.init) ∧
    handle_tools_call (some "create_todo") { title := some "" } "t" MainState.init
      = (.content "Error: Title is required", MainState.init) :=
  ⟨create_blank_title_validation.1 (some "   ") none "medium" 0 FlaskDB.init (by decide),
   create_blank_title_validation.2.1 (some "a") none "medium" 0 FlaskDB.init (by decide),
   create_blank_title_validation.2.2.1 { title := some " " } "t" MainState.init (by decide),
   create_blank_title_validation.2.2.2.2.1 { title := some "" } "t" MainState.init
     (by decide)⟩

/-! ## Claim C6: stored priorities

The REST handlers and the Task Service keep every stored priority inside
`{low, medium, high}`; the MCP `create_todo` / `update_todo` tool branches
store whatever string was supplied, unvalidated. -/

/-- Every task in the `main.py` store has an allowed priority. -/
def PriosOK (st : MainState) : Prop :=
  ∀ p ∈ st.storage, p.2.priority ∈ allowedPriorities

/-- Every row of the Flask database has an allowed priority. -/
def RowPriosOK (db : FlaskDB) : Prop :=
  ∀ r ∈ db.rows, r.priority ∈ allowedPriorities

/-- C6 counterexample.  A `tools/call` create with priority `"urgent"`
stores a task whose priority is `"urgent"`, outside the three allowed
values. -/
theorem mcp_priority_unvalidated_counterexample :
    (handle_tools_call (some "create_todo")
        { title := some "a", priority := some "urgent" } "t" MainState.init).2.storage
      = [(1, ⟨1, "a", "", false, "urgent", "t"⟩)] ∧
    "urgent" ∉ allowedPriorities := by
  exact ⟨by decide, by decide⟩

/-- C6 as amended.  After every create or update through the REST handlers
(`POST /api/todos`, `PUT /api/todos/{id}`, `PATCH .../complete`,
`DELETE .../{id}`) or through the Task Service, every stored priority is
one of `low`, `medium`, `high`; the MCP `create_todo` and `update_todo`
tool branches do not validate priorities (see the counterexample). -/
theorem rest_service_priorities_stay_valid :
    (∀ (d : CreateData) (now : String) (st : MainState),
       PriosOK st → PriosOK (create_todo_api d now st).2) ∧
    (∀ (tid : Int) (d : UpdateData) (st : MainState),
       PriosOK st → PriosOK (update_todo_api tid d st).2) ∧
    (∀ (tid : Int) (c : Option JVal) (st : MainState),
       PriosOK st → PriosOK (toggle_todo_complete tid c st).2) ∧
    (∀ (tid : Int) (st : MainState),
       PriosOK st → PriosOK (delete_todo_api tid st).2) ∧
    (∀ (t d : Option String) (p : String) (now : Int) (db : FlaskDB),
       RowPriosOK db → RowPriosOK (TodoService.create_todo t d p now db).2) ∧
    (∀ (tid : Option Int) (t d p : Option String) (c : Option Bool) (now : Int)
       (db : FlaskDB),
       RowPriosOK db → RowPriosOK (TodoService.update_todo tid t d p c now db).2) ∧
    (∀ (tid : Option Int) (db : FlaskDB),
       RowPriosOK db → RowPriosOK (TodoService.delete_todo tid db).2) := by
  refine ⟨?_, ?_, ?_, ?_, ?_, ?_, ?_⟩
  · -- POST /api/todos: the stored priority is the coerced one
    intro d now st hok
    unfold create_todo_api
    by_cases hb : (pyStrip (d.title.getD "")).isEmpty
    · simpa [hb] using hok
    · simp only [hb, Bool.false_eq_true, if_false]
      intro q hq
      rcases Storage.mem_setPy hq with h | h
      · subst h
        by_cases hp : d.priority.getD "medium" ∈ allowedPriorities
        · simp [hp]
        · simp [hp]
          decide
      · exact hok q h
  · -- PUT /api/todos/{id}
    intro tid d st hok
    unfold update_todo_api
    rcases hl : Storage.lookup tid st.storage with _ | todo
    · exact hok
    · have htodo : (tid, todo) ∈ st.storage := Storage.lookup_eq_some hl
      have hpr : todo.priority ∈ allowedPriorities := hok _ htodo
      rcases d.title with _ | ttl
      · simp only []
        intro q hq
        rcases Storage.mem_setPy hq with h | h
        · subst h
          cases hdp : d.priority with
          | none => cases d.description <;> cases d.completed <;> simp [hdp] <;> exact hpr
          | some p =>
            by_cases hp : p ∈ allowedPriorities <;>
              cases d.description <;> cases d.completed <;> simp [hdp, hp] <;> exact hpr
        · exact hok q h
      · by_cases hb : (pyStrip ttl).isEmpty
        · simpa [hb] using hok
        · simp only [hb, Bool.false_eq_true, if_false]
          intro q hq
          rcases Storage.mem_setPy hq with h | h
          · subst h
            cases hdp : d.priority with
            | none => cases d.description <;> cases d.completed <;> simp [hdp] <;> exact hpr
            | some p =>
              by_cases hp : p ∈ allowedPriorities <;>
                cases d.description <;> cases d.completed <;> simp [hdp, hp] <;> exact hpr
          · exact hok q h
  · -- PATCH /api/todos/{id}/complete
    intro tid c st hok
    unfold toggle_todo_complete
    rcases hl : Storage.lookup tid st.storage with _ | todo
    · exact hok
    · have hpr : todo.priority ∈ allowedPriorities :=
        hok _ (Storage.lookup_eq_some hl)
      intro q hq
      rcases Storage.mem_setPy hq with h | h
      · subst h; exact hpr
      · exact hok q h
  · -- DELETE /api/todos/{id}
    intro tid st hok
    unfold delete_todo_api
    rcases hl : Storage.lookup tid st.storage with _ | todo
    · exact hok
    · intro q hq
      exact hok q (Storage.mem_pop hq)
  · -- TodoService.create_todo
    intro t d p now db hok
    unfold TodoService.create_todo
    by_cases hb : blankTitle t
    · simpa [hb] using hok
    · simp only [hb, Bool.false_eq_true, if_false]
      intro r hr
      rcases List.mem_append.1 hr with h | h
      · exact hok r h
      · simp at h
        subst h
        by_cases hp : p ∈ allowedPriorities
        · simp [hp]
        · simp [hp]
          decide
  · -- TodoService.update_todo
    intro tid t d p c now db hok
    cases tid with
    | none => exact hok
    | some tid =>
      rcases hg : db.getRow tid with _ | row
      · simpa [TodoService.update_todo, hg] using hok
      · have hrow : row ∈ db.rows := List.mem_of_find?_eq_some hg
        have hpr : row.priority ∈ allowedPriorities := hok _ hrow
        have hbranch : ∀ r5 : TodoRow, r5.priority ∈ allowedPriorities →
            RowPriosOK ⟨db.rows.map (fun r => if r.id == tid then r5 else r), db.nextId⟩ := by
          intro r5 h5 q hq
          rcases List.mem_map.1 hq with ⟨r, hrm, hre⟩
          by_cases hid : r.id == tid
          · simp [hid] at hre; subst hre; exact h5
          · simp [hid] at hre; subst hre; exact hok _ hrm
        simp only [TodoService.update_todo, hg]
        rcases t with _ | ttl
        · refine hbranch _ ?_
          cases hdp : p with
          | none => cases d <;> cases c <;> simp [hdp] <;> exact hpr
          | some pv =>
            by_cases hp : pv ∈ allowedPriorities <;>
              cases d <;> cases c <;> simp [hdp, hp] <;> exact hpr
        · by_cases hb : (pyStrip ttl).isEmpty
          · simpa [hb] using hok
          · simp only [hb, Bool.false_eq_true, if_false]
            refine hbranch _ ?_
            cases hdp : p with
            | none => cases d <;> cases c <;> simp [hdp] <;> exact hpr
            | some pv =>
              by_cases hp : pv ∈ allowedPriorities <;>
                cases d <;> cases c <;> simp [hdp, hp] <;> exact hpr
  · -- TodoService.delete_todo
    intro tid db hok
    cases tid with
    | none => exact hok
    | some tid =>
      rcases hg : db.getRow tid with _ | row
      · simpa [TodoService.delete_todo, hg] using hok
      · simp only [TodoService.delete_todo, hg]
        intro q hq
        exact hok q (List.mem_of_mem_filter hq)

/-- Witness for C6 as amended: a REST create with an out-of-range priority
on the empty store keeps all stored priorities valid. -/
theorem rest_service_priorities_stay_valid_witness :
    PriosOK (create_todo_api { title := some "a", priority := some "urgent" } "t"
      MainState.init).2 ∧
    RowPriosOK (TodoService.create_todo (some "a") none "urgent" 0 FlaskDB.init).2 :=
  ⟨rest_service_priorities_stay_valid.1
      { title := some "a", priority := some "urgent" } "t" MainState.init
      (by intro p hp; simp [MainState.init] at hp),
   rest_service_priorities_stay_valid.2.2.2.2.1 (some "a") none "urgent" 0 FlaskDB.init
      (by intro r hr; simp [FlaskDB.init] at hr)⟩

/-- Witness for C10 at priority `"urgent"` on a one-row database. -/
theorem update_invalid_priority_ignored_witness :
    (TodoService.update_todo (some 1) none none (some "urgent") none 5
        ⟨[⟨1, "a", none, false, "medium", 0, 0⟩], 2⟩
      = TodoService.update_todo (some 1) none none none none 5
        ⟨[⟨1, "a", none, false, "medium", 0, 0⟩], 2⟩) ∧
    (update_todo_api 1 { priority := some "urgent" } MainState.init
      = update_todo_api 1 { priority := none } MainState.init) ∧
    (∃ r', (TodoService.update_todo (some 1) none none (some "urgent") none 5
        ⟨[⟨1, "a", none, false, "medium", 0, 0⟩], 2⟩).1
      = .success r' ∧ r'.priority = "medium") :=
  ⟨update_invalid_priority_ignored.1 (some 1) none none "urgent" none 5
      ⟨[⟨1, "a", none, false, "medium", 0, 0⟩], 2⟩ (by decide),
   update_invalid_priority_ignored.2.1 1 {} "urgent" MainState.init (by decide),
   update_invalid_priority_ignored.2.2 1 "urgent" none 5
      ⟨[⟨1, "a", none, false, "medium", 0, 0⟩], 2⟩
      ⟨1, "a", none, false, "medium", 0, 0⟩ (by decide) rfl⟩
